import Mathlib

/-!
# Formal model of the felicity event-management backend

A shallow embedding of the registration/approval state machine, the
attendance check-in logic, the inventory accounting and the QR ticket
codec of the backend (`src/routes/events.js`, `src/utils/emailService.js`,
`src/models/*.js`), together with theorems settling the specification
claims about them.

Conventions:
- JavaScript numbers that can only be incremented are `Nat`; variant
  stock, which the code decrements without a lower bound check, is `Int`.
- Nullable document fields are `Option`.
- Request context (current user, clock, fresh UUIDs, uploaded file names)
  is passed as explicit parameters.
- Route handlers respond with distinct error messages; these are modelled
  by the constructors of `ApiError`, named after the message they carry.
-/

namespace Felicity

/-- `paymentApprovalStatus` / `registrationApprovalStatus` enum
(`src/models/registration.js`). -/
inductive ApprovalStatus
  | not_required
  | pending
  | approved
  | rejected
deriving DecidableEq, Repr

/-- Registration overall `status` enum (`src/models/registration.js`). -/
inductive RegStatus
  | registered
  | attended
  | cancelled
  | rejected
  | pending_approval
deriving DecidableEq, Repr

/-- `attendanceStatus` enum. -/
inductive AttendanceStatus
  | not_checked
  | present
  | absent
deriving DecidableEq, Repr

/-- `paymentStatus` enum. -/
inductive PaymentStatus
  | pending
  | completed
  | free
deriving DecidableEq, Repr

/-- Event `eventType` enum (`src/models/event.js`). -/
inductive EventType
  | normal
  | merchandise
deriving DecidableEq, Repr

/-- Event lifecycle `status` enum (`src/models/event.js`). -/
inductive EventStatus
  | draft
  | published
  | ongoing
  | completed
deriving DecidableEq, Repr

/-- Event `eligibility` enum. -/
inductive Eligibility
  | all
  | iiitans
  | external
deriving DecidableEq, Repr

/-- `scanHistory` entry `action` enum. -/
inductive ScanAction
  | scanned
  | manual_present
  | manual_absent
  | duplicate_rejected
deriving DecidableEq, Repr

/-- One `scanHistory` audit entry.  Timestamps and actor references are
request context and are not modelled; the `action` and `notes` carry the
information the claims are about. -/
structure ScanEntry where
  action : ScanAction
  notes : Option String
deriving DecidableEq, Repr

/-- A merchandise variant embedded in an event
(`MerchandiseVariantSchema`).  `stockQuantity` is a `Nat`: the schema
declares `min: 0` (`src/models/event.js:28`) and mongoose validates it
on every `save()`, so no persisted document ever holds a negative
stock. -/
structure Variant where
  variantId : String
  stockQuantity : Nat
  price : Nat
deriving DecidableEq, Repr

/-- A `merchandiseSelection` as sent by the client and stored on the
registration.  `quantity` is optional; the code reads it as
`quantity || 1`. -/
structure MerchSelection where
  variantId : String
  quantity : Option Nat
deriving DecidableEq, Repr

/-- JavaScript `q || 1`: a missing or zero quantity counts as 1. -/
def qtyOrOne (q : Option Nat) : Nat :=
  match q with
  | none => 1
  | some n => if n = 0 then 1 else n

/-- The event document fields the registration lifecycle reads and
writes (`src/models/event.js`).  `registrationLimit` is only required
for normal events, hence `Option`. -/
structure EventRec where
  eventType : EventType
  status : EventStatus
  eligibility : Eligibility
  registrationFee : Nat
  requiresApproval : Bool
  registrationLimit : Option Nat
  variants : List Variant
  totalRegistrations : Nat
  totalRevenue : Nat
  totalAttendance : Nat
deriving DecidableEq, Repr

/-- The registration document fields the lifecycle reads and writes
(`src/models/registration.js`).  The encrypted QR payload is modelled by
presence (`Option Unit`); its byte-level content is the subject of the
separate ticket-codec model below. -/
structure Registration where
  status : RegStatus
  paymentStatus : PaymentStatus
  paymentApprovalStatus : ApprovalStatus
  registrationApprovalStatus : ApprovalStatus
  ticketId : Option Nat
  qrCodeEncrypted : Option Unit
  paymentProofImage : Option String
  paymentRejectionReason : Option String
  registrationRejectionReason : Option String
  attendanceStatus : AttendanceStatus
  manualOverride : Bool
  overrideReason : Option String
  merchandiseSelection : Option MerchSelection
  scanHistory : List ScanEntry
deriving DecidableEq, Repr

/-- The distinct user-facing errors of the modelled routes, named after
the response message each corresponds to. -/
inductive ApiError
  | eventNotOpen
  | deadlineHasPassed
  | iiitansOnly
  | externalOnly
  | limitReached
  | alreadyRegistered
  | selectVariant
  | invalidVariant
  | outOfStock
  | paymentAlreadyProcessed
  | noPaymentProof
  | proofNotRequired
  | registrationAlreadyProcessed
  | eventNotOngoing (current : EventStatus)
  | regCancelled
  | regRejected
  | regPendingApproval
  | invalidRegStatus (current : RegStatus)
  | regApprovalPending
  | regApprovalRejected
  | paymentApprovalPending
  | paymentApprovalRejected
  | reasonTooShort
deriving DecidableEq, Repr

/-- JS `event.totalRegistrations >= event.registrationLimit`: comparison
against an absent limit is false (`NaN` semantics). -/
def limitReached (e : EventRec) : Bool :=
  match e.registrationLimit with
  | some l => decide (l ≤ e.totalRegistrations)
  | none => false

/-- Decrement the stock of the first variant matching `vid` by `q`
(`variants.find(...)` followed by in-place mutation of the found
variant); no-op when no variant matches.  Callers only persist this
when the schema's `min: 0` validation passes, i.e. when the matched
stock is at least `q`. -/
def decStockFirst : List Variant → String → Nat → List Variant
  | [], _, _ => []
  | v :: vs, vid, q =>
    if v.variantId == vid then
      { v with stockQuantity := v.stockQuantity - q } :: vs
    else
      v :: decStockFirst vs vid q

/-- Stock of the first variant matching `vid`, if any. -/
def stockOf (vs : List Variant) (vid : String) : Option Nat :=
  (vs.find? (fun v => v.variantId == vid)).map Variant.stockQuantity

/-- Second half of `POST /:id/register` (`src/routes/events.js:864-956`),
after all validation has passed: derive the two approval gates, build the
registration document, and, when both gates are `not_required`, finalize
immediately (ticket id, QR issuance, stock decrement for merchandise and
`totalRegistrations` increment).  `variant` is the variant found for a
merchandise event (`none` for normal events); `fresh` is the UUID the
handler would generate. -/
def finishSubmit (e : EventRec) (sel : Option MerchSelection)
    (variant : Option Variant) (fresh : Nat) : EventRec × Registration :=
  let isPaidEvent : Bool :=
    (e.eventType == .merchandise &&
      (match variant with
       | some v => decide (0 < v.price)
       | none => false)) ||
    (e.eventType == .normal && decide (0 < e.registrationFee))
  let paymentApprovalStatus : ApprovalStatus :=
    if isPaidEvent then .pending else .not_required
  let paymentStatus : PaymentStatus :=
    if isPaidEvent then .pending else .free
  let registrationApprovalStatus : ApprovalStatus :=
    if e.requiresApproval then .pending else .not_required
  let registrationStatus : RegStatus :=
    if isPaidEvent then .pending_approval
    else if e.requiresApproval then .pending_approval
    else .registered
  let ticketId : Option Nat :=
    if !isPaidEvent && registrationApprovalStatus == .not_required then
      some fresh
    else none
  let finalize : Bool :=
    paymentApprovalStatus == .not_required &&
      registrationApprovalStatus == .not_required
  let r : Registration :=
    { status := registrationStatus
      paymentStatus := paymentStatus
      paymentApprovalStatus := paymentApprovalStatus
      registrationApprovalStatus := registrationApprovalStatus
      ticketId := ticketId
      qrCodeEncrypted := if finalize then some () else none
      paymentProofImage := none
      paymentRejectionReason := none
      registrationRejectionReason := none
      attendanceStatus := .not_checked
      manualOverride := false
      overrideReason := none
      merchandiseSelection :=
        if e.eventType == .merchandise then sel else none
      scanHistory := [] }
  let e' : EventRec :=
    if finalize then
      { e with
        totalRegistrations := e.totalRegistrations + 1
        variants :=
          match e.eventType, variant, sel with
          | .merchandise, some _, some s =>
            decStockFirst e.variants s.variantId (qtyOrOne s.quantity)
          | _, _, _ => e.variants }
    else e
  (e', r)

/-- `POST /:id/register` (`src/routes/events.js`): validation in handler
order, then `finishSubmit`.  `isIIITian` is the caller's flag,
`deadlinePassed` models `now > registrationDeadline`, and
`alreadyRegistered` models the duplicate-registration lookup. -/
def submitRegistration (e : EventRec) (isIIITian deadlinePassed
    alreadyRegistered : Bool) (sel : Option MerchSelection) (fresh : Nat) :
    Except ApiError (EventRec × Registration) :=
  if e.status ≠ .published ∧ e.status ≠ .ongoing then
    .error .eventNotOpen
  else if deadlinePassed then
    .error .deadlineHasPassed
  else if e.eligibility = .iiitans ∧ ¬ isIIITian then
    .error .iiitansOnly
  else if e.eligibility = .external ∧ isIIITian then
    .error .externalOnly
  else if limitReached e then
    .error .limitReached
  else if alreadyRegistered then
    .error .alreadyRegistered
  else
    match e.eventType with
    | .normal => .ok (finishSubmit e sel none fresh)
    | .merchandise =>
      match sel with
      | none => .error .selectVariant
      | some s =>
        if s.variantId = "" then .error .selectVariant
        else
          match e.variants.find? (fun v => v.variantId == s.variantId) with
          | none => .error .invalidVariant
          | some v =>
            if v.stockQuantity < qtyOrOne s.quantity then
              .error .outOfStock
            else .ok (finishSubmit e (some s) (some v) fresh)

/-- `POST /:id/upload-payment-proof`: only legal while the payment gate
is pending; attaches the proof path and changes nothing else. -/
def uploadPaymentProof (r : Registration) (path : String) :
    Except ApiError Registration :=
  if r.paymentApprovalStatus ≠ .pending then .error .proofNotRequired
  else .ok { r with paymentProofImage := some path }

/-- Outcome of `approve-payment`.  The handler performs two separate
persists: `registration.save()` (which always succeeds here) and then
`event.save()` (which mongoose rejects when the stock decrement
violates the schema's `min: 0` validator, making the route answer a
generic 500).  `saveError` is that second case: the registration is
already persisted approved, the event is unchanged. -/
inductive ApproveOutcome
  | failure (err : ApiError)
  | saveError (e : EventRec) (r : Registration)
  | ok (e : EventRec) (r : Registration)
deriving DecidableEq, Repr

/-- `POST /:eventId/approve-payment/:registrationId`
(`src/routes/events.js:1097-1238`).  After the pending/proof checks the
handler: approves the payment gate, marks payment completed, discards
the proof, sets overall status to `registered` only when the
registration gate is not pending, generates a ticket id if absent,
issues the QR unconditionally, and persists the registration
(`registration.save()`, line 1173).  It then decrements the selected
variant's stock (when one is selected and found), increments
`totalRegistrations`, and calls `event.save()`: when the decrement
would drive the stock below zero the `min: 0` schema validator
(`src/models/event.js:28`) rejects that save, the route answers a
generic 500, and the event document keeps its previous state — while
the registration remains persisted as approved with its ticket and
QR. -/
def approvePayment (e : EventRec) (r : Registration) (fresh : Nat) :
    ApproveOutcome :=
  if r.paymentApprovalStatus ≠ .pending then .failure .paymentAlreadyProcessed
  else if r.paymentProofImage = none then .failure .noPaymentProof
  else
    let r1 := { r with
      paymentApprovalStatus := .approved
      paymentStatus := .completed
      paymentProofImage := none }
    let r2 := if r1.registrationApprovalStatus ≠ .pending then
        { r1 with status := .registered }
      else r1
    let r3 := if r2.ticketId = none then { r2 with ticketId := some fresh }
      else r2
    let r4 := { r3 with qrCodeEncrypted := some () }
    match r.merchandiseSelection with
    | some s =>
      if s.variantId ≠ "" then
        match e.variants.find? (fun v => v.variantId == s.variantId) with
        | some v =>
          if v.stockQuantity < qtyOrOne s.quantity then
            .saveError e r4
          else
            .ok { e with
              variants :=
                decStockFirst e.variants s.variantId (qtyOrOne s.quantity)
              totalRegistrations := e.totalRegistrations + 1 } r4
        | none =>
          .ok { e with totalRegistrations := e.totalRegistrations + 1 } r4
      else
        .ok { e with totalRegistrations := e.totalRegistrations + 1 } r4
    | none =>
      .ok { e with totalRegistrations := e.totalRegistrations + 1 } r4

/-- The condition under which the approve-payment event save is
rejected by the `min: 0` stock validator: a variant is selected, found,
and lacks the requested quantity. -/
def payDecrementBlocked (e : EventRec) (r : Registration) : Bool :=
  match r.merchandiseSelection with
  | some s =>
    if s.variantId = "" then false
    else
      match e.variants.find? (fun v => v.variantId == s.variantId) with
      | some v => decide (v.stockQuantity < qtyOrOne s.quantity)
      | none => false
  | none => false

/-- `POST /:eventId/reject-payment/:registrationId`
(`src/routes/events.js:1241-1303`).  Rejects the payment gate, stores the
reason (or the default message), discards the proof.  Note: the handler
does not touch the overall `status` and does not touch the event. -/
def rejectPayment (e : EventRec) (r : Registration) (reason : Option String) :
    Except ApiError (EventRec × Registration) :=
  if r.paymentApprovalStatus ≠ .pending then .error .paymentAlreadyProcessed
  else
    .ok (e, { r with
      paymentApprovalStatus := .rejected
      paymentRejectionReason :=
        some (reason.getD "Payment rejected by organizer")
      paymentProofImage := none })

/-- `POST /:eventId/approve-registration/:registrationId`
(`src/routes/events.js:1368-1472`).  Approves the registration gate, sets
overall status to `registered` unconditionally, generates a ticket id if
absent; issues the QR only when the payment gate is not pending and no QR
exists yet, and in that branch increments `totalRegistrations` only when
the payment gate is `not_required`.  No stock is ever decremented
here. -/
def approveRegistration (e : EventRec) (r : Registration) (fresh : Nat) :
    Except ApiError (EventRec × Registration) :=
  if r.registrationApprovalStatus ≠ .pending then
    .error .registrationAlreadyProcessed
  else
    let r1 := { r with
      registrationApprovalStatus := .approved
      status := .registered }
    let r2 := if r1.ticketId = none then { r1 with ticketId := some fresh }
      else r1
    if r2.paymentApprovalStatus ≠ .pending ∧ r2.qrCodeEncrypted = none then
      let r3 := { r2 with qrCodeEncrypted := some () }
      let e1 := if r3.paymentApprovalStatus = .not_required then
          { e with totalRegistrations := e.totalRegistrations + 1 }
        else e
      .ok (e1, r3)
    else
      .ok (e, r2)

/-- `POST /:eventId/reject-registration/:registrationId`: rejects the
registration gate, sets overall status to `rejected`, stores the
reason. -/
def rejectRegistration (e : EventRec) (r : Registration)
    (reason : Option String) : Except ApiError (EventRec × Registration) :=
  if r.registrationApprovalStatus ≠ .pending then
    .error .registrationAlreadyProcessed
  else
    .ok (e, { r with
      registrationApprovalStatus := .rejected
      status := .rejected
      registrationRejectionReason :=
        some (reason.getD "Registration rejected by organizer") })

/-- Outcome of a ticket scan: a named error, a 409 duplicate conflict
(which still appends an audit entry to the registration), or success
(which mutates both registration and event). -/
inductive ScanOutcome
  | failure (err : ApiError)
  | duplicate (e : EventRec) (r : Registration)
  | success (e : EventRec) (r : Registration)
deriving DecidableEq, Repr

/-- `POST /:eventId/scan-ticket` (`src/routes/events.js:1600-1790`),
modelled from the point where the registration matching the submitted
ticket identifier has been resolved.  The checks appear in handler
order: event must be `ongoing`; registration status must not be
`cancelled`/`rejected`/`pending_approval` (and must be
`registered`/`attended`); the registration gate then the payment gate
must not be `pending`/`rejected`; then the duplicate check.  The handler
performs no check on `qrCodeEncrypted`. -/
def scanTicket (e : EventRec) (r : Registration) : ScanOutcome :=
  if e.status ≠ .ongoing then .failure (.eventNotOngoing e.status)
  else if r.status = .cancelled then .failure .regCancelled
  else if r.status = .rejected then .failure .regRejected
  else if r.status = .pending_approval then .failure .regPendingApproval
  else if r.status ≠ .registered ∧ r.status ≠ .attended then
    .failure (.invalidRegStatus r.status)
  else if r.registrationApprovalStatus = .pending then
    .failure .regApprovalPending
  else if r.registrationApprovalStatus = .rejected then
    .failure .regApprovalRejected
  else if r.paymentApprovalStatus = .pending then
    .failure .paymentApprovalPending
  else if r.paymentApprovalStatus = .rejected then
    .failure .paymentApprovalRejected
  else if r.attendanceStatus = .present then
    .duplicate e
      { r with scanHistory := r.scanHistory ++
          [⟨.duplicate_rejected, some "Duplicate scan attempt rejected"⟩] }
  else
    .success
      { e with totalAttendance := e.totalAttendance + 1 }
      { r with
        attendanceStatus := .present
        status := .attended
        scanHistory := r.scanHistory ++ [⟨.scanned, none⟩] }

/-- JS whitespace for `String.prototype.trim` (the common cases). -/
def jsWhitespace (c : Char) : Bool :=
  c == ' ' || c == '\t' || c == '\n' || c == '\r'

/-- JS `s.trim()`, as the remaining character list. -/
def jsTrim (s : String) : List Char :=
  ((s.data.dropWhile jsWhitespace).reverse.dropWhile jsWhitespace).reverse

/-- The valid manual-attendance targets (the handler rejects any other
`status` string before doing anything). -/
inductive MTarget
  | present
  | absent
deriving DecidableEq, Repr

/-- `POST /:eventId/manual-attendance/:registrationId`
(`src/routes/events.js:1793-1875`).  After the target/reason validation
the handler performs no event-status or approval-gate check: it
overwrites `attendanceStatus`, sets the override flag and reason, sets
overall status to `attended` (target present) or `registered` (target
absent), appends the audit entry, and adjusts `totalAttendance` by the
delta relative to the previous attendance state (`Math.max(0, x - 1)` is
natural subtraction). -/
def manualAttendance (e : EventRec) (r : Registration) (target : MTarget)
    (reason : String) : Except ApiError (EventRec × Registration) :=
  if (jsTrim reason).length < 5 then .error .reasonTooShort
  else
    let prev := r.attendanceStatus
    let newAtt : AttendanceStatus :=
      match target with | .present => .present | .absent => .absent
    let r' := { r with
      attendanceStatus := newAtt
      manualOverride := true
      overrideReason := some reason
      status := match target with
        | .present => RegStatus.attended
        | .absent => RegStatus.registered
      scanHistory := r.scanHistory ++
        [⟨match target with
          | .present => ScanAction.manual_present
          | .absent => ScanAction.manual_absent, some reason⟩] }
    let e' :=
      if prev ≠ .present ∧ newAtt = .present then
        { e with totalAttendance := e.totalAttendance + 1 }
      else if prev = .present ∧ newAtt = .absent then
        { e with totalAttendance := e.totalAttendance - 1 }
      else e
    .ok (e', r')

/-! ## Lifecycle traces

The operations an organizer or participant can apply to one registration
after it has been submitted.  A handler whose validation fails responds
with an error and leaves all documents unchanged, so `applyOp` keeps the
state on error. -/

/-- One post-submission API call on a single registration.  `Nat`
arguments are the fresh UUIDs a successful call would generate. -/
inductive LifecycleOp
  | uploadProof (path : String)
  | approvePayment (fresh : Nat)
  | rejectPayment (reason : Option String)
  | approveRegistration (fresh : Nat)
  | rejectRegistration (reason : Option String)
deriving DecidableEq, Repr

/-- Apply one lifecycle call to the (event, registration) pair; failed
calls change nothing. -/
def applyOp (s : EventRec × Registration) (op : LifecycleOp) :
    EventRec × Registration :=
  match op with
  | .uploadProof p =>
    match uploadPaymentProof s.2 p with
    | .ok r' => (s.1, r')
    | .error _ => s
  | .approvePayment f =>
    match approvePayment s.1 s.2 f with
    | .ok e r => (e, r)
    | .saveError e r => (e, r)
    | .failure _ => s
  | .rejectPayment reason =>
    match rejectPayment s.1 s.2 reason with
    | .ok s' => s'
    | .error _ => s
  | .approveRegistration f =>
    match approveRegistration s.1 s.2 f with
    | .ok s' => s'
    | .error _ => s
  | .rejectRegistration reason =>
    match rejectRegistration s.1 s.2 reason with
    | .ok s' => s'
    | .error _ => s

/-- Run a sequence of lifecycle calls. -/
def runOps (s : EventRec × Registration) (ops : List LifecycleOp) :
    EventRec × Registration :=
  ops.foldl applyOp s

/-- The gate configurations in which the code has performed its
inventory commit for this registration: payment approved (commit happens
inside `approve-payment`), or payment never required and the
registration gate cleared at submission or by `approve-registration`. -/
def committed (r : Registration) : Bool :=
  r.paymentApprovalStatus == .approved ||
    (r.paymentApprovalStatus == .not_required &&
      (r.registrationApprovalStatus == .not_required ||
        r.registrationApprovalStatus == .approved))

/-- Inductive invariant of a registration's lifetime, relative to the
`totalRegistrations` count `n0` of the event just before submission:
the counter is at its pre-submission value or exactly one above it, the
latter only in a `committed` gate configuration (the converse can fail:
an approve-payment whose event save is rejected by the stock validator
leaves the payment gate approved with the commit lost); a ticket never
exists while both gates are simultaneously pending; and a QR never
exists while the payment gate is pending. -/
def LifecycleInv (n0 : Nat) (s : EventRec × Registration) : Prop :=
  (s.1.totalRegistrations = n0 ∨
    (s.1.totalRegistrations = n0 + 1 ∧ committed s.2 = true))
  ∧ (s.2.ticketId ≠ none →
      ¬ (s.2.paymentApprovalStatus = .pending ∧
         s.2.registrationApprovalStatus = .pending))
  ∧ (s.2.qrCodeEncrypted ≠ none → s.2.paymentApprovalStatus ≠ .pending)

/-! ## Result projections (used to state closed counterexamples) -/

instance {ε α : Type} [DecidableEq ε] [DecidableEq α] :
    DecidableEq (Except ε α) := fun x y =>
  match x, y with
  | .ok a, .ok b =>
    if h : a = b then .isTrue (congrArg Except.ok h)
    else .isFalse (fun he => h (Except.ok.inj he))
  | .error a, .error b =>
    if h : a = b then .isTrue (congrArg Except.error h)
    else .isFalse (fun he => h (Except.error.inj he))
  | .ok _, .error _ => .isFalse (fun he => Except.noConfusion he)
  | .error _, .ok _ => .isFalse (fun he => Except.noConfusion he)

/-- Whether a handler call succeeded. -/
def isOkB {α : Type} (x : Except ApiError α) : Bool :=
  match x with
  | .ok _ => true
  | .error _ => false

/-- Event part of a successful handler result, with fallback. -/
def okEvent (x : Except ApiError (EventRec × Registration)) (fb : EventRec) :
    EventRec :=
  match x with
  | .ok s => s.1
  | .error _ => fb

/-- Registration part of a successful handler result, with fallback. -/
def okReg (x : Except ApiError (EventRec × Registration)) (fb : Registration) :
    Registration :=
  match x with
  | .ok s => s.2
  | .error _ => fb

/-- Whether an approve-payment call fully succeeded. -/
def payIsOk : ApproveOutcome → Bool
  | .ok _ _ => true
  | _ => false

/-- Whether an approve-payment call died in `event.save()` (500). -/
def payIsSaveError : ApproveOutcome → Bool
  | .saveError _ _ => true
  | _ => false

/-- Persisted event after an approve-payment call, with fallback for
guard failures (which touch nothing). -/
def payEvent : ApproveOutcome → EventRec → EventRec
  | .ok e _, _ => e
  | .saveError e _, _ => e
  | .failure _, fb => fb

/-- Persisted registration after an approve-payment call, with fallback
for guard failures. -/
def payReg : ApproveOutcome → Registration → Registration
  | .ok _ r, _ => r
  | .saveError _ r, _ => r
  | .failure _, fb => fb

/-- The three response shapes of the scan route. -/
inductive ScanKind
  | success
  | duplicate
  | failure
deriving DecidableEq, Repr

/-- Response shape of a scan outcome. -/
def classOf : ScanOutcome → ScanKind
  | .failure _ => .failure
  | .duplicate _ _ => .duplicate
  | .success _ _ => .success

/-- The error of a failed scan, if any. -/
def errOf : ScanOutcome → Option ApiError
  | .failure err => some err
  | _ => none

/-- Registration returned by a duplicate or successful scan. -/
def scanReg : ScanOutcome → Option Registration
  | .failure _ => none
  | .duplicate _ r => some r
  | .success _ r => some r

/-- Event returned by a duplicate or successful scan. -/
def scanEvent : ScanOutcome → Option EventRec
  | .failure _ => none
  | .duplicate e _ => some e
  | .success e _ => some e

/-! ## Concrete fixtures

A merchandise event with a priced variant and manual approval required,
and the registration states its lifecycle passes through.  These are the
explicit inputs of the counterexamples; the counterexample statements
re-derive each of them from the handler calls, so the literals carry no
authority of their own. -/

/-- Merchandise event: one variant `v1` with 5 units at price 500,
`requiresApproval = true`, open for registration. -/
def cEv : EventRec :=
  { eventType := .merchandise
    status := .published
    eligibility := .all
    registrationFee := 0
    requiresApproval := true
    registrationLimit := none
    variants := [⟨"v1", 5, 500⟩]
    totalRegistrations := 0
    totalRevenue := 0
    totalAttendance := 0 }

/-- Selection of one unit of `v1`. -/
def cSel : MerchSelection := ⟨"v1", some 1⟩

/-- The registration `POST /:id/register` creates on `cEv`: both gates
pending, no ticket, no QR. -/
def cReg0 : Registration :=
  { status := .pending_approval
    paymentStatus := .pending
    paymentApprovalStatus := .pending
    registrationApprovalStatus := .pending
    ticketId := none
    qrCodeEncrypted := none
    paymentProofImage := none
    paymentRejectionReason := none
    registrationRejectionReason := none
    attendanceStatus := .not_checked
    manualOverride := false
    overrideReason := none
    merchandiseSelection := some cSel
    scanHistory := [] }

/-- `cReg0` with a payment proof attached. -/
def cReg1 : Registration := { cReg0 with paymentProofImage := some "proof.png" }

/-- Same event without the approval requirement and with a single unit
of stock, for the overselling counterexample. -/
def cEv6 : EventRec := { cEv with requiresApproval := false, variants := [⟨"v1", 1, 500⟩] }

/-- The registration submitted against `cEv6` (payment gate pending,
registration gate not required).  Two distinct users submitting the same
selection produce registration documents that agree on every modelled
field, so this fixture serves for both. -/
def cReg6sub : Registration :=
  { cReg0 with registrationApprovalStatus := .not_required }

/-- `cReg6sub` with a payment proof attached. -/
def cReg6 : Registration :=
  { cReg6sub with paymentProofImage := some "proof.png" }

/-- Event state after the first of the two payment approvals on `cEv6`. -/
def cEv6a : EventRec := payEvent (approvePayment cEv6 cReg6 203) cEv6

/-- Event state after the second payment approval on `cEv6` (that
call's `event.save()` fails, so the event is unchanged). -/
def cEv6b : EventRec := payEvent (approvePayment cEv6a cReg6 204) cEv6a

/-- An ongoing copy of `cEv` for scan counterexamples. -/
def cEvOngoing : EventRec := { cEv with status := .ongoing }

/-- A fully approved registration holding a ticket but no encrypted QR
payload (e.g. a legacy document): the spec says the scan must reject it,
the handler has no such check. -/
def cRegNoQr : Registration :=
  { cReg0 with
    status := .registered
    paymentStatus := .free
    paymentApprovalStatus := .not_required
    registrationApprovalStatus := .approved
    ticketId := some 7
    merchandiseSelection := none }

/-- A valid issued ticket: `cRegNoQr` with its encrypted QR payload. -/
def cRegTicketed : Registration := { cRegNoQr with qrCodeEncrypted := some () }

/-- Upload the proof, then approve the payment. -/
def cOps : List LifecycleOp := [.uploadProof "proof.png", .approvePayment 102]

/-- Upload the proof, approve the payment, then reject the
registration. -/
def cOpsRej : List LifecycleOp :=
  [.uploadProof "proof.png", .approvePayment 102, .rejectRegistration none]

/-- A free normal event requiring no approval. -/
def cEvFree : EventRec :=
  { eventType := .normal
    status := .published
    eligibility := .all
    registrationFee := 0
    requiresApproval := false
    registrationLimit := some 100
    variants := []
    totalRegistrations := 0
    totalRevenue := 0
    totalAttendance := 0 }

/-- `cEvFree` after one immediately finalized registration. -/
def cEvFree' : EventRec := { cEvFree with totalRegistrations := 1 }

/-- The registration the register route creates on `cEvFree`:
immediately finalized. -/
def cRegFree : Registration :=
  { status := .registered
    paymentStatus := .free
    paymentApprovalStatus := .not_required
    registrationApprovalStatus := .not_required
    ticketId := some 301
    qrCodeEncrypted := some ()
    paymentProofImage := none
    paymentRejectionReason := none
    registrationRejectionReason := none
    attendanceStatus := .not_checked
    manualOverride := false
    overrideReason := none
    merchandiseSelection := none
    scanHistory := [] }

/-! ## Ticket codec (`src/utils/emailService.js`)

Byte-level model of `encryptQRData` / `decryptQRData` /
`generateEncryptedQRCode`.  Bytes are `Nat` below 256; strings are byte
lists.  AES-256-CBC is modelled as CBC mode with PKCS#7 padding (what
node's `createCipheriv("aes-256-cbc", key, iv)` with `update`/`final`
computes) over an abstract 16-byte block cipher; the AES-256 block
permutation for the server key instantiates the `GoodCipher` interface.
Hex strings are modelled as lists of nibble values 0..15 (the ASCII
hex-digit mapping is a bijection adding nothing). -/

/-- A 16-byte block cipher: the encryption and decryption directions. -/
structure CipherModel where
  encBlock : List Nat → List Nat
  decBlock : List Nat → List Nat

/-- What a block cipher keyed with a fixed key provides: on 16-byte
blocks of bytes, decryption inverts encryption, and encryption returns
16 bytes. -/
def GoodCipher (C : CipherModel) : Prop :=
  (∀ b : List Nat, b.length = 16 → (∀ x ∈ b, x < 256) →
    C.decBlock (C.encBlock b) = b)
  ∧ (∀ b : List Nat, b.length = 16 → (∀ x ∈ b, x < 256) →
    (C.encBlock b).length = 16)
  ∧ (∀ b : List Nat, b.length = 16 → (∀ x ∈ b, x < 256) →
    ∀ x ∈ C.encBlock b, x < 256)

/-- The identity block cipher (used only to witness the interface). -/
def idCipher : CipherModel := ⟨id, id⟩

/-- Hex-encode a byte list as a nibble list (two nibbles per byte). -/
def hexEnc : List Nat → List Nat
  | [] => []
  | b :: bs => b / 16 :: b % 16 :: hexEnc bs

/-- Decode a nibble list back to bytes; fails on odd length or on a
value that is not a nibble. -/
def hexDec : List Nat → Option (List Nat)
  | [] => some []
  | [_] => none
  | h :: l :: rest =>
    if h < 16 ∧ l < 16 then (hexDec rest).map (fun bs => (h * 16 + l) :: bs)
    else none

/-- PKCS#7 padding to 16-byte blocks, as applied by
`cipher.update`/`cipher.final`. -/
def pkcs7pad (bs : List Nat) : List Nat :=
  bs ++ List.replicate (16 - bs.length % 16) (16 - bs.length % 16)

/-- PKCS#7 unpadding; fails (node: `bad decrypt`) when the trailing
padding is malformed. -/
def pkcs7unpad (bs : List Nat) : Option (List Nat) :=
  match bs.getLast? with
  | none => none
  | some k =>
    if k = 0 ∨ 16 < k ∨ bs.length < k then none
    else if (bs.drop (bs.length - k)).all (fun x => x == k) then
      some (bs.take (bs.length - k))
    else none

/-- Split into consecutive 16-byte blocks. -/
def chunks16 (l : List Nat) : List (List Nat) :=
  if h : l = [] then []
  else l.take 16 :: chunks16 (l.drop 16)
termination_by l.length
decreasing_by
  rcases l with _ | ⟨a, l⟩
  · exact absurd rfl h
  · simp [List.length_drop]
    omega

/-- Pointwise xor of two equal-length byte blocks. -/
def zipXor (a b : List Nat) : List Nat :=
  List.zipWith (fun x y => x ^^^ y) a b

/-- CBC encryption of a block list, chaining from `prev` (initially the
IV). -/
def cbcEnc (E : List Nat → List Nat) (prev : List Nat) :
    List (List Nat) → List (List Nat)
  | [] => []
  | b :: bs =>
    let c := E (zipXor prev b)
    c :: cbcEnc E c bs

/-- CBC decryption of a block list, chaining from `prev`. -/
def cbcDec (D : List Nat → List Nat) (prev : List Nat) :
    List (List Nat) → List (List Nat)
  | [] => []
  | c :: cs => zipXor prev (D c) :: cbcDec D c cs

/-- `encryptQRData` (`src/utils/emailService.js:15-26`): pad, CBC-encrypt
under the freshly drawn IV, hex both.  Returns
`(encryptedData, iv)` as hex. -/
def encryptQRData (C : CipherModel) (iv : List Nat) (data : List Nat) :
    List Nat × List Nat :=
  (hexEnc ((cbcEnc C.encBlock iv (chunks16 (pkcs7pad data))).flatten),
   hexEnc iv)

/-- `decryptQRData` (`src/utils/emailService.js:29-37`): hex-decode both
arguments, CBC-decrypt, unpad; any malformed input fails (node throws). -/
def decryptQRData (C : CipherModel) (encHex ivHex : List Nat) :
    Option (List Nat) :=
  match hexDec encHex, hexDec ivHex with
  | some ct, some iv =>
    if iv.length = 16 ∧ ct.length % 16 = 0 then
      pkcs7unpad ((cbcDec C.decBlock iv (chunks16 ct)).flatten)
    else none
  | _, _ => none

/-- The identity tuple `generateEncryptedQRCode` serializes
(`src/utils/emailService.js:41-48`); every field is a JS string, modelled
as its byte list. -/
structure TicketData where
  ticketId : List Nat
  userId : List Nat
  eventId : List Nat
  eventName : List Nat
  userName : List Nat
  registrationDate : List Nat
deriving DecidableEq, Repr

/-- Byte list of a Lean string literal (ASCII field names). -/
def strBytes (s : String) : List Nat := s.toList.map Char.toNat

/-- One `"name":"value"` JSON member. -/
def jsonMember (name value : List Nat) : List Nat :=
  [34] ++ name ++ [34, 58, 34] ++ value ++ [34]

/-- `JSON.stringify` of the ticket object, with the fixed insertion-order
keys the code uses (34 `"`, 58 `:`, 44 `,`, 123/125 braces). -/
def serializeTicket (t : TicketData) : List Nat :=
  [123] ++ (jsonMember (strBytes "ticketId") t.ticketId
  ++ ([44] ++ (jsonMember (strBytes "userId") t.userId
  ++ ([44] ++ (jsonMember (strBytes "eventId") t.eventId
  ++ ([44] ++ (jsonMember (strBytes "eventName") t.eventName
  ++ ([44] ++ (jsonMember (strBytes "userName") t.userName
  ++ ([44] ++ (jsonMember (strBytes "registrationDate") t.registrationDate
  ++ [125])))))))))))

/-- Read bytes up to the next `"` (byte 34); return the value and the
remainder after the quote. -/
def readStringValue : List Nat → Option (List Nat × List Nat)
  | [] => none
  | b :: bs =>
    if b = 34 then some ([], bs)
    else (readStringValue bs).map (fun p => (b :: p.1, p.2))

/-- Consume an expected byte sequence. -/
def expectBytes (pre bs : List Nat) : Option (List Nat) :=
  if bs.take pre.length = pre then some (bs.drop pre.length) else none

/-- Read one `"name":"value"` member with the given name. -/
def readMember (name bs : List Nat) : Option (List Nat × List Nat) :=
  match expectBytes ([34] ++ name ++ [34, 58, 34]) bs with
  | none => none
  | some rest => readStringValue rest

/-- `JSON.parse` of the decrypted plaintext restricted to the shape the
codec produces, reading back the six string fields. -/
def parseTicket (bs : List Nat) : Option TicketData :=
  match expectBytes [123] bs with
  | none => none
  | some bs => match readMember (strBytes "ticketId") bs with
    | none => none
    | some (ticketId, bs) => match expectBytes [44] bs with
      | none => none
      | some bs => match readMember (strBytes "userId") bs with
        | none => none
        | some (userId, bs) => match expectBytes [44] bs with
          | none => none
          | some bs => match readMember (strBytes "eventId") bs with
            | none => none
            | some (eventId, bs) => match expectBytes [44] bs with
              | none => none
              | some bs => match readMember (strBytes "eventName") bs with
                | none => none
                | some (eventName, bs) => match expectBytes [44] bs with
                  | none => none
                  | some bs => match readMember (strBytes "userName") bs with
                    | none => none
                    | some (userName, bs) => match expectBytes [44] bs with
                      | none => none
                      | some bs =>
                        match readMember (strBytes "registrationDate") bs with
                        | none => none
                        | some (registrationDate, bs) =>
                          match expectBytes [125] bs with
                          | none => none
                          | some rest =>
                            if rest = [] then
                              some ⟨ticketId, userId, eventId, eventName,
                                    userName, registrationDate⟩
                            else none

/-- A field value is JSON-safe when it is plain bytes with no quote or
backslash (so `JSON.stringify` emits it verbatim). -/
def jsonSafe (v : List Nat) : Prop :=
  (∀ x ∈ v, x < 256) ∧ 34 ∉ v ∧ 92 ∉ v

/-- All six fields of a ticket tuple are JSON-safe. -/
def safeTicket (t : TicketData) : Prop :=
  jsonSafe t.ticketId ∧ jsonSafe t.userId ∧ jsonSafe t.eventId ∧
  jsonSafe t.eventName ∧ jsonSafe t.userName ∧ jsonSafe t.registrationDate

/-- End-to-end decode of the envelope produced for a ticket: decrypt the
`(encryptedData, iv)` pair and parse the plaintext back
(the scan route's `JSON.parse(decryptQRData(...))`). -/
def decodeTicket (C : CipherModel) (envelope : List Nat × List Nat) :
    Option TicketData :=
  match decryptQRData C envelope.1 envelope.2 with
  | none => none
  | some plain => parseTicket plain

/-- A concrete identity tuple for the codec witness. -/
def cTicket : TicketData :=
  ⟨strBytes "TID-1", strBytes "U-9", strBytes "E-3", strBytes "Tech Expo",
   strBytes "Sam Lee", strBytes "2026-02-01T10:00:00Z"⟩

/-! ## Behaviour specifications

Prop-level characterizations of single handler calls, referenced by the
claim theorems and their witnesses. -/

/-- What a guard-passing `approve-payment` call does: it always
approves the payment gate, completes the payment, discards the proof,
and issues ticket id and QR on the persisted registration — regardless
of the registration gate, which only decides whether `status` moves to
`registered`.  The inventory side then splits: when the selected
variant lacks the requested stock, `event.save()` is rejected by the
`min: 0` validator and the event is returned unchanged (`saveError`,
HTTP 500); otherwise the stock is decremented and `totalRegistrations`
incremented. -/
def ApprovePaymentSpec (e : EventRec) (r : Registration) (fresh : Nat) :
    Prop :=
  (if payDecrementBlocked e r then
    payIsSaveError (approvePayment e r fresh) = true
    ∧ payEvent (approvePayment e r fresh) e = e
   else
    payIsOk (approvePayment e r fresh) = true
    ∧ (payEvent (approvePayment e r fresh) e).totalRegistrations
        = e.totalRegistrations + 1
    ∧ (payEvent (approvePayment e r fresh) e).variants =
        (match r.merchandiseSelection with
         | some s =>
           if s.variantId ≠ "" then
             decStockFirst e.variants s.variantId (qtyOrOne s.quantity)
           else e.variants
         | none => e.variants)
    ∧ (payEvent (approvePayment e r fresh) e).totalRevenue = e.totalRevenue
    ∧ (payEvent (approvePayment e r fresh) e).totalAttendance
        = e.totalAttendance)
  ∧ (payReg (approvePayment e r fresh) r).paymentApprovalStatus = .approved
  ∧ (payReg (approvePayment e r fresh) r).paymentStatus = .completed
  ∧ (payReg (approvePayment e r fresh) r).paymentProofImage = none
  ∧ (payReg (approvePayment e r fresh) r).qrCodeEncrypted = some ()
  ∧ (payReg (approvePayment e r fresh) r).ticketId
      = (if r.ticketId = none then some fresh else r.ticketId)
  ∧ (payReg (approvePayment e r fresh) r).registrationApprovalStatus
      = r.registrationApprovalStatus
  ∧ (payReg (approvePayment e r fresh) r).status
      = (if r.registrationApprovalStatus = .pending then r.status
         else .registered)
  ∧ (payReg (approvePayment e r fresh) r).attendanceStatus
      = r.attendanceStatus

/-- What `reject-payment` does: on a pending payment gate it rejects
the gate, stores the reason (or the default), discards the proof, and
changes nothing else — in particular the overall `status` and the event
are untouched; on a non-pending gate it fails and changes nothing. -/
def RejectPaymentSpec (e : EventRec) (r : Registration)
    (reason : Option String) : Prop :=
  (r.paymentApprovalStatus = .pending →
    ∃ r', rejectPayment e r reason = .ok (e, r')
      ∧ r'.paymentApprovalStatus = .rejected
      ∧ r'.paymentRejectionReason =
          some (reason.getD "Payment rejected by organizer")
      ∧ r'.paymentProofImage = none
      ∧ r'.status = r.status
      ∧ r'.ticketId = r.ticketId
      ∧ r'.qrCodeEncrypted = r.qrCodeEncrypted
      ∧ r'.registrationApprovalStatus = r.registrationApprovalStatus
      ∧ r'.attendanceStatus = r.attendanceStatus)
  ∧ (r.paymentApprovalStatus ≠ .pending →
    rejectPayment e r reason = .error .paymentAlreadyProcessed)

/-- What `manual-attendance` does when the reason is long enough: no
event-lifecycle or approval-gate check at all, unconditional overwrite
of the attendance state, overall status forced to `attended`/`registered`
by the target alone, audit entry appended, and `totalAttendance`
adjusted by the delta against the previous attendance state. -/
def ManualAttendanceSpec (e : EventRec) (r : Registration) (target : MTarget)
    (reason : String) : Prop :=
  ∃ e' r', manualAttendance e r target reason = .ok (e', r')
    ∧ r'.attendanceStatus =
        (match target with
         | .present => AttendanceStatus.present
         | .absent => AttendanceStatus.absent)
    ∧ r'.manualOverride = true
    ∧ r'.overrideReason = some reason
    ∧ r'.status =
        (match target with
         | .present => RegStatus.attended
         | .absent => RegStatus.registered)
    ∧ r'.paymentApprovalStatus = r.paymentApprovalStatus
    ∧ r'.registrationApprovalStatus = r.registrationApprovalStatus
    ∧ r'.ticketId = r.ticketId
    ∧ r'.scanHistory = r.scanHistory ++
        [⟨match target with
          | .present => ScanAction.manual_present
          | .absent => ScanAction.manual_absent, some reason⟩]
    ∧ e'.totalAttendance =
        (if r.attendanceStatus ≠ .present ∧ target = .present then
          e.totalAttendance + 1
         else if r.attendanceStatus = .present ∧ target = .absent then
          e.totalAttendance - 1
         else e.totalAttendance)
    ∧ e'.status = e.status
    ∧ e'.totalRegistrations = e.totalRegistrations
    ∧ e'.variants = e.variants

/-- The condition under which the register route marks a submission as
paid: a selected merchandise variant with positive price, or a normal
event with a positive registration fee. -/
def paidCond (e : EventRec) (sel : Option MerchSelection) : Bool :=
  (e.eventType == .merchandise &&
    (match sel.bind
        (fun s => e.variants.find? (fun v => v.variantId == s.variantId)) with
     | some v => decide (0 < v.price)
     | none => false)) ||
  (e.eventType == .normal && decide (0 < e.registrationFee))

/-- What a successful submission produces: the registration gate is
pending exactly when the event requires approval, the payment gate is
pending exactly when `paidCond` holds, and the registration is
immediately finalized (ticket, QR, `registered`, inventory commit)
exactly when both gates resolve to `not_required`, otherwise persisted
as `pending_approval` with no ticket, no QR and an untouched event. -/
def SubmitSpec (e : EventRec) (sel : Option MerchSelection) (fresh : Nat)
    (e' : EventRec) (r' : Registration) : Prop :=
  r'.registrationApprovalStatus =
      (if e.requiresApproval then ApprovalStatus.pending
       else ApprovalStatus.not_required)
  ∧ r'.paymentApprovalStatus =
      (if paidCond e sel then ApprovalStatus.pending
       else ApprovalStatus.not_required)
  ∧ (if paidCond e sel = false ∧ e.requiresApproval = false then
      r'.status = .registered ∧ r'.ticketId = some fresh
      ∧ r'.qrCodeEncrypted = some ()
      ∧ e'.totalRegistrations = e.totalRegistrations + 1
      ∧ e'.variants =
          (match e.eventType, sel with
           | .merchandise, some s =>
             decStockFirst e.variants s.variantId (qtyOrOne s.quantity)
           | _, _ => e.variants)
     else
      r'.status = .pending_approval ∧ r'.ticketId = none
      ∧ r'.qrCodeEncrypted = none ∧ e' = e)

/-- Scanning a valid issued ticket twice: the first call marks the
participant present (status `attended`, one `scanned` audit entry,
`totalAttendance` + 1, everything else untouched), and re-scanning the
resulting state yields a duplicate conflict that returns the event
unchanged and the registration unchanged apart from exactly one appended
`duplicate_rejected` audit entry. -/
def ScanTwiceSpec (e : EventRec) (r : Registration) : Prop :=
  ∃ e1 r1, scanTicket e r = .success e1 r1
    ∧ r1.attendanceStatus = .present
    ∧ r1.status = .attended
    ∧ r1.scanHistory = r.scanHistory ++ [⟨.scanned, none⟩]
    ∧ e1.totalAttendance = e.totalAttendance + 1
    ∧ e1.status = e.status
    ∧ e1.totalRegistrations = e.totalRegistrations
    ∧ e1.variants = e.variants
    ∧ scanTicket e1 r1 = .duplicate e1
        { r1 with scanHistory := r1.scanHistory ++
            [⟨.duplicate_rejected, some "Duplicate scan attempt rejected"⟩] }

/-- The checks the scan route actually performs, in order, and the fact
that it reads `qrCodeEncrypted` nowhere: the response shape and error of
a scan are invariant under any change of the stored QR payload. -/
def ScanChecksSpec (e : EventRec) (r : Registration) (q : Option Unit) :
    Prop :=
  classOf (scanTicket e { r with qrCodeEncrypted := q })
      = classOf (scanTicket e r)
  ∧ errOf (scanTicket e { r with qrCodeEncrypted := q })
      = errOf (scanTicket e r)
  ∧ (e.status ≠ .ongoing →
      scanTicket e r = .failure (.eventNotOngoing e.status))
  ∧ (e.status = .ongoing → r.status = .cancelled →
      scanTicket e r = .failure .regCancelled)
  ∧ (e.status = .ongoing → r.status = .rejected →
      scanTicket e r = .failure .regRejected)
  ∧ (e.status = .ongoing → r.status = .pending_approval →
      scanTicket e r = .failure .regPendingApproval)
  ∧ (e.status = .ongoing →
      (r.status = .registered ∨ r.status = .attended) →
      r.registrationApprovalStatus = .pending →
      scanTicket e r = .failure .regApprovalPending)
  ∧ (e.status = .ongoing →
      (r.status = .registered ∨ r.status = .attended) →
      r.registrationApprovalStatus = .rejected →
      scanTicket e r = .failure .regApprovalRejected)
  ∧ (e.status = .ongoing →
      (r.status = .registered ∨ r.status = .attended) →
      (r.registrationApprovalStatus = .not_required ∨
        r.registrationApprovalStatus = .approved) →
      r.paymentApprovalStatus = .pending →
      scanTicket e r = .failure .paymentApprovalPending)
  ∧ (e.status = .ongoing →
      (r.status = .registered ∨ r.status = .attended) →
      (r.registrationApprovalStatus = .not_required ∨
        r.registrationApprovalStatus = .approved) →
      r.paymentApprovalStatus = .rejected →
      scanTicket e r = .failure .paymentApprovalRejected)

/-! ## Theorems -/

/-- A decrement against an absent variant is a no-op (shared helper). -/
theorem decStockFirst_not_found (vs : List Variant) (vid : String) (q : Nat)
    (h : vs.find? (fun v => v.variantId == vid) = none) :
    decStockFirst vs vid q = vs := by
  induction vs with
  | nil => rfl
  | cons v vs ih =>
    rw [List.find?_cons] at h
    rcases hb : (v.variantId == vid) with _ | _
    · rw [hb] at h
      simp [decStockFirst, hb, ih h]
    · rw [hb] at h
      exact absurd h (by simp)

/-- Core characterization of a guard-passing `approve-payment` call
(shared helper). -/
theorem approvePayment_ok (e : EventRec) (r : Registration)
    (fresh : Nat) (hpend : r.paymentApprovalStatus = .pending)
    (hproof : r.paymentProofImage ≠ none) :
    ApprovePaymentSpec e r fresh := by
  rcases r with ⟨st, ps, pas, ras, tid, qr, proof, prr, rrr, att, mo, orr,
    sel, hist⟩
  simp only at hpend hproof
  subst hpend
  rcases proof with _ | p
  · exact absurd rfl hproof
  unfold ApprovePaymentSpec approvePayment payDecrementBlocked
  rcases sel with _ | s
  · cases ras <;> cases tid <;>
      simp [payIsOk, payIsSaveError, payEvent, payReg]
  · by_cases hvid : s.variantId = ""
    · cases ras <;> cases tid <;>
        simp [hvid, payIsOk, payIsSaveError, payEvent, payReg]
    · rcases hfind : e.variants.find? (fun v => v.variantId == s.variantId)
        with _ | v
      · have hdec := decStockFirst_not_found e.variants s.variantId
          (qtyOrOne s.quantity) hfind
        cases ras <;> cases tid <;>
          simp [hvid, hfind, hdec, payIsOk, payIsSaveError, payEvent, payReg]
      · by_cases hst : v.stockQuantity < qtyOrOne s.quantity
        · cases ras <;> cases tid <;>
            simp [hvid, hfind, hst, payIsOk, payIsSaveError, payEvent, payReg]
        · cases ras <;> cases tid <;>
            simp [hvid, hfind, hst, payIsOk, payIsSaveError, payEvent, payReg]

/-- First-match stock decrement seen through first-match lookup. -/
theorem stockOf_decStockFirst (vs : List Variant) (vid : String) (q : Nat) :
    stockOf (decStockFirst vs vid q) vid
      = (stockOf vs vid).map (fun x => x - q) := by
  induction vs with
  | nil => simp [stockOf, decStockFirst]
  | cons v vs ih =>
    by_cases h : v.variantId = vid
    · simp [stockOf, decStockFirst, List.find?, h]
    · have hb : (v.variantId == vid) = false := by simp [h]
      simp only [stockOf, decStockFirst, List.find?] at ih ⊢
      simp [hb, ih]

/-- C2 counterexample: on the merchandise event `cEv` (variant priced
500, approval required) the registration submitted via the register
route has both gates pending; after the proof upload, `approve-payment`
succeeds and — although the registration gate is still pending — issues
a ticket id and the QR and commits inventory (stock 5 → 4,
`totalRegistrations` 0 → 1), contradicting the claim that ticket/QR and
inventory commitment happen only when `registrationApprovalStatus` is
not still pending. -/
theorem approvePayment_commits_while_gate_pending :
    submitRegistration cEv true false false (some cSel) 101 = .ok (cEv, cReg0)
    ∧ uploadPaymentProof cReg0 "proof.png" = .ok cReg1
    ∧ payIsOk (approvePayment cEv cReg1 102) = true
    ∧ (payReg (approvePayment cEv cReg1 102) cReg0).registrationApprovalStatus
        = .pending
    ∧ (payReg (approvePayment cEv cReg1 102) cReg0).ticketId = some 102
    ∧ (payReg (approvePayment cEv cReg1 102) cReg0).qrCodeEncrypted = some ()
    ∧ (payReg (approvePayment cEv cReg1 102) cReg0).status = .pending_approval
    ∧ (payEvent (approvePayment cEv cReg1 102) cEv).totalRegistrations = 1
    ∧ stockOf (payEvent (approvePayment cEv cReg1 102) cEv).variants "v1"
        = some 4
    ∧ stockOf cEv.variants "v1" = some 5 := by
  decide

/-- C2 (amended): a guard-passing `approve-payment` call (payment gate
pending, proof attached) always approves the gate, marks payment
complete, discards the proof, and issues the ticket id (if absent) and
the QR on the persisted registration — regardless of the registration
gate; only the overall `status` update to `registered` is conditional
on the registration gate not being pending.  The inventory commit then
succeeds (stock decrement + `totalRegistrations` increment) exactly
when the selected variant has the requested stock; otherwise
`event.save()` is rejected by the `min: 0` validator and the event is
left unchanged while the registration keeps its approved gate and
ticket. -/
theorem approvePayment_behaviour (e : EventRec) (r : Registration)
    (fresh : Nat) (hpend : r.paymentApprovalStatus = .pending)
    (hproof : r.paymentProofImage ≠ none) :
    ApprovePaymentSpec e r fresh :=
  approvePayment_ok e r fresh hpend hproof

/-- Witness for `approvePayment_behaviour` at the concrete fixture. -/
theorem approvePayment_behaviour_witness :
    cReg1.paymentApprovalStatus = .pending
    ∧ cReg1.paymentProofImage ≠ none
    ∧ ApprovePaymentSpec cEv cReg1 102 :=
  ⟨by decide, by decide,
    approvePayment_behaviour cEv cReg1 102 (by decide) (by decide)⟩

/-- C4 counterexample: `reject-payment` on the pending registration of
`cEv` rejects the payment gate but leaves the overall `status` at
`pending_approval` — the handler never sets it to `rejected`,
contradicting the claim that the registration's overall status becomes
rejected. -/
theorem rejectPayment_leaves_overall_status :
    submitRegistration cEv true false false (some cSel) 101 = .ok (cEv, cReg0)
    ∧ uploadPaymentProof cReg0 "proof.png" = .ok cReg1
    ∧ isOkB (rejectPayment cEv cReg1 none) = true
    ∧ (okReg (rejectPayment cEv cReg1 none) cReg0).paymentApprovalStatus
        = .rejected
    ∧ (okReg (rejectPayment cEv cReg1 none) cReg0).status = .pending_approval
    ∧ RegStatus.pending_approval ≠ RegStatus.rejected := by
  decide

/-- C4 (amended): `reject-payment` on a pending payment gate rejects the
gate, stores the reason, discards the proof image, commits no inventory
(the event is returned untouched) and changes nothing else — in
particular the overall `status` keeps its previous value rather than
becoming `rejected`; on a non-pending gate the call fails with the
already-processed error and changes nothing. -/
theorem rejectPayment_behaviour (e : EventRec) (r : Registration)
    (reason : Option String) : RejectPaymentSpec e r reason := by
  unfold RejectPaymentSpec rejectPayment
  constructor
  · intro h
    rw [if_neg (by simp [h])]
    exact ⟨_, rfl, by simp⟩
  · intro h
    rw [if_pos h]

/-- Witness for `rejectPayment_behaviour`: the pending branch is live at
the concrete fixture. -/
theorem rejectPayment_behaviour_witness :
    cReg1.paymentApprovalStatus = .pending
    ∧ RejectPaymentSpec cEv cReg1 none :=
  ⟨by decide, rejectPayment_behaviour cEv cReg1 none⟩

/-- C10: manual attendance override succeeds for any registration
whenever the target is a valid status and the (trimmed) reason has at
least 5 characters — with no check of the event's lifecycle status or of
the approval gates — overwriting `attendanceStatus` unconditionally and
setting the overall status to `attended` (target present) or
`registered` (target absent) regardless of its previous value. -/
theorem manualAttendance_behaviour (e : EventRec) (r : Registration)
    (target : MTarget) (reason : String)
    (hlen : 5 ≤ (jsTrim reason).length) :
    ManualAttendanceSpec e r target reason := by
  rcases r with ⟨st, ps, pas, ras, tid, qr, proof, prr, rrr, att, mo, orr,
    sel, hist⟩
  unfold ManualAttendanceSpec manualAttendance
  rw [if_neg (by omega)]
  refine ⟨_, _, rfl, ?_⟩
  cases target <;> cases att <;> simp

/-- Witness for `manualAttendance_behaviour`: overriding to absent on a
pending-approval registration that had been marked present. -/
theorem manualAttendance_behaviour_witness :
    5 ≤ (jsTrim "was marked in error").length
    ∧ ManualAttendanceSpec cEvOngoing
        { cReg0 with attendanceStatus := .present } .absent
        "was marked in error" :=
  ⟨by decide,
    manualAttendance_behaviour cEvOngoing
      { cReg0 with attendanceStatus := .present } .absent
      "was marked in error" (by decide)⟩

/-- Core characterization of a successful submission (shared helper). -/
theorem submit_ok (e : EventRec) (iii dl al : Bool)
    (sel : Option MerchSelection) (fresh : Nat) (e' : EventRec)
    (r' : Registration)
    (h : submitRegistration e iii dl al sel fresh = .ok (e', r')) :
    SubmitSpec e sel fresh e' r' := by
  unfold submitRegistration at h
  split at h
  · exact Except.noConfusion h
  split at h
  · exact Except.noConfusion h
  split at h
  · exact Except.noConfusion h
  split at h
  · exact Except.noConfusion h
  split at h
  · exact Except.noConfusion h
  split at h
  · exact Except.noConfusion h
  split at h
  case _ hET =>
    unfold finishSubmit at h
    simp only [Except.ok.injEq, Prod.mk.injEq] at h
    obtain ⟨he, hr⟩ := h
    subst he hr
    unfold SubmitSpec paidCond
    simp [hET]
    split_ifs <;> simp_all
  case _ hET =>
    split at h
    next => exact Except.noConfusion h
    next s =>
      split at h
      · exact Except.noConfusion h
      split at h
      next hFind => exact Except.noConfusion h
      next v hFind =>
        split at h
        · exact Except.noConfusion h
        next hStock =>
          unfold finishSubmit at h
          simp only [Except.ok.injEq, Prod.mk.injEq] at h
          obtain ⟨he, hr⟩ := h
          subst he hr
          unfold SubmitSpec paidCond
          simp [hET, hFind]
          split_ifs <;> simp_all

/-- C7: a successful registration submission derives the gates exactly
as claimed (`paymentApprovalStatus` pending iff the selected variant has
positive price or the normal event has a positive fee;
`registrationApprovalStatus` pending iff the event requires approval),
finalizes immediately (ticket, QR, `registered`, inventory commit) when
both gates are `not_required`, and otherwise persists the registration
as `pending_approval` with no ticket, no QR and no inventory change. -/
theorem submit_behaviour (e : EventRec) (iii dl al : Bool)
    (sel : Option MerchSelection) (fresh : Nat) (e' : EventRec)
    (r' : Registration)
    (h : submitRegistration e iii dl al sel fresh = .ok (e', r')) :
    SubmitSpec e sel fresh e' r' :=
  submit_ok e iii dl al sel fresh e' r' h

/-- Witness for `submit_behaviour`: the free no-approval normal event is
finalized immediately at submission. -/
theorem submit_behaviour_witness :
    submitRegistration cEvFree true false false none 301
      = .ok (cEvFree', cRegFree)
    ∧ SubmitSpec cEvFree none 301 cEvFree' cRegFree :=
  ⟨by decide,
    submit_behaviour cEvFree true false false none 301 cEvFree' cRegFree
      (by decide)⟩

/-- C5: for a valid issued ticket scanned while the event is ongoing,
the first scan marks the participant present and increments the event's
attendance by exactly 1, and an immediate second scan of the same ticket
is a duplicate conflict that appends exactly one `duplicate_rejected`
audit entry, leaves `attendanceStatus` unchanged, and does not change
`totalAttendance`. -/
theorem scan_behaviour (e : EventRec) (r : Registration)
    (hev : e.status = .ongoing)
    (hst : r.status = .registered ∨ r.status = .attended)
    (hra : r.registrationApprovalStatus = .not_required ∨
      r.registrationApprovalStatus = .approved)
    (hpa : r.paymentApprovalStatus = .not_required ∨
      r.paymentApprovalStatus = .approved)
    (hatt : r.attendanceStatus ≠ .present) :
    ScanTwiceSpec e r := by
  rcases e with ⟨et, est, elig, fee, reqA, lim, vars, tr, trev, ta⟩
  rcases r with ⟨st, ps, pas, ras, tid, qr, proof, prr, rrr, att, mo, orr,
    sel, hist⟩
  simp only at hev hst hra hpa hatt
  subst hev
  unfold ScanTwiceSpec
  rcases hst with h | h <;> subst h <;>
    rcases hra with h | h <;> subst h <;>
      rcases hpa with h | h <;> subst h <;>
        cases att <;>
          first
          | exact absurd rfl hatt
          | exact ⟨_, _, rfl, rfl, rfl, rfl, rfl, rfl, rfl, rfl, rfl⟩

/-- Witness for `scan_behaviour` at a concrete issued ticket. -/
theorem scan_behaviour_witness :
    cEvOngoing.status = .ongoing
    ∧ (cRegTicketed.status = .registered ∨ cRegTicketed.status = .attended)
    ∧ (cRegTicketed.registrationApprovalStatus = .not_required ∨
        cRegTicketed.registrationApprovalStatus = .approved)
    ∧ (cRegTicketed.paymentApprovalStatus = .not_required ∨
        cRegTicketed.paymentApprovalStatus = .approved)
    ∧ cRegTicketed.attendanceStatus ≠ .present
    ∧ ScanTwiceSpec cEvOngoing cRegTicketed :=
  ⟨by decide, by decide, by decide, by decide, by decide,
    scan_behaviour cEvOngoing cRegTicketed (by decide) (by decide)
      (by decide) (by decide) (by decide)⟩

/-- C8 counterexample: a registration matching the scanned ticket whose
`qrCodeEncrypted` is absent but whose status and gates are clear is
marked present by the scan route — the handler performs no check that a
QR was ever issued, contradicting the claimed third validation step. -/
theorem scan_accepts_missing_qr :
    cRegNoQr.qrCodeEncrypted = none
    ∧ classOf (scanTicket cEvOngoing cRegNoQr) = .success
    ∧ (scanReg (scanTicket cEvOngoing cRegNoQr)).map
        Registration.attendanceStatus = some .present
    ∧ (scanEvent (scanTicket cEvOngoing cRegNoQr)).map
        EventRec.totalAttendance = some 1 := by
  decide

/-- C8 (amended): the scan operation checks, in order, that the
registration's status is not cancelled/rejected/pending_approval and
that neither approval gate is pending or rejected, each violation
producing a distinct named error before any attendance mutation — but it
never checks `qrCodeEncrypted`: the outcome of a scan is invariant under
any change of the stored QR payload, so a matching registration without
an issued QR is scanned normally rather than rejected. -/
theorem scan_checks (e : EventRec) (r : Registration) (q : Option Unit) :
    ScanChecksSpec e r q := by
  rcases r with ⟨st, ps, pas, ras, tid, qr, proof, prr, rrr, att, mo, orr,
    sel, hist⟩
  unfold ScanChecksSpec
  refine ⟨?_, ?_, ?_, ?_, ?_, ?_, ?_, ?_, ?_, ?_⟩
  · simp only [scanTicket]
    simp only [apply_ite classOf]
    simp only [classOf]
  · simp only [scanTicket]
    simp only [apply_ite errOf]
    simp only [errOf]
  · intro h1
    simp [scanTicket, h1]
  · intro h1 h2
    simp only at h2
    simp [scanTicket, h1, h2]
  · intro h1 h2
    simp only at h2
    simp [scanTicket, h1, h2]
  · intro h1 h2
    simp only at h2
    simp [scanTicket, h1, h2]
  · intro h1 h2 h3
    simp only at h2 h3
    rcases h2 with h2 | h2 <;> simp [scanTicket, h1, h2, h3]
  · intro h1 h2 h3
    simp only at h2 h3
    rcases h2 with h2 | h2 <;> simp [scanTicket, h1, h2, h3]
  · intro h1 h2 h3 h4
    simp only at h2 h3 h4
    rcases h2 with h2 | h2 <;> rcases h3 with h3 | h3 <;>
      simp [scanTicket, h1, h2, h3, h4]
  · intro h1 h2 h3 h4
    simp only at h2 h3 h4
    rcases h2 with h2 | h2 <;> rcases h3 with h3 | h3 <;>
      simp [scanTicket, h1, h2, h3, h4]

/-- Witness for `scan_checks`: the QR-invariance at the concrete
fixture, with the event-not-ongoing implication live. -/
theorem scan_checks_witness :
    cEv.status ≠ .ongoing ∧ ScanChecksSpec cEv cRegTicketed none :=
  ⟨by decide, scan_checks cEv cRegTicketed none⟩

/-- C6 counterexample: two registrations are submitted against the last
unit of variant `v1` of `cEv6` (both pass the advisory submission stock
check) and both payments are approved.  The second approval is *not*
refused with a distinct error: its payment gate is approved and a
ticket issued on the persisted registration, and only the event save
fails (`min: 0` validator → generic 500, here the `saveError` outcome
rather than any named `failure`), leaving stock at 0 — contradicting
the claim that such an approval "must be refused (reported as a
distinct error)". -/
theorem oversell_approval_generic_failure :
    submitRegistration cEv6 true false false (some cSel) 201
      = .ok (cEv6, cReg6sub)
    ∧ uploadPaymentProof cReg6sub "proof.png" = .ok cReg6
    ∧ payIsOk (approvePayment cEv6 cReg6 203) = true
    ∧ stockOf cEv6.variants "v1" = some 1
    ∧ stockOf cEv6a.variants "v1" = some 0
    ∧ payIsSaveError (approvePayment cEv6a cReg6 204) = true
    ∧ (payReg (approvePayment cEv6a cReg6 204) cReg6).paymentApprovalStatus
        = .approved
    ∧ (payReg (approvePayment cEv6a cReg6 204) cReg6).ticketId = some 204
    ∧ (payReg (approvePayment cEv6a cReg6 204) cReg6).qrCodeEncrypted
        = some ()
    ∧ payEvent (approvePayment cEv6a cReg6 204) cEv6 = cEv6a
    ∧ stockOf cEv6b.variants "v1" = some 0 := by
  decide

/-- C6 (amended): persisted stock never goes negative, but not through
a clean refusal.  The submission stock check is the only advisory check
with a distinct error (out-of-stock); at `approve-payment` the
registration side is committed first (gate approved, ticket and QR
issued) and the stock decrement is then persisted only when the
selected variant has the requested quantity — otherwise `event.save()`
is rejected by the schema's `min: 0` validator, the route answers a
generic 500 (no distinct error), the event is unchanged, and the
approved, ticketed registration's inventory commit is lost. -/
theorem stock_check_only_at_submission :
    (∀ (e : EventRec) (iii dl al : Bool) (s : MerchSelection) (v : Variant)
      (fresh : Nat),
      (e.status = .published ∨ e.status = .ongoing) → dl = false →
      al = false → e.eligibility = .all → limitReached e = false →
      e.eventType = .merchandise → s.variantId ≠ "" →
      e.variants.find? (fun x => x.variantId == s.variantId) = some v →
      v.stockQuantity < qtyOrOne s.quantity →
      submitRegistration e iii dl al (some s) fresh = .error .outOfStock)
    ∧ (∀ (e : EventRec) (r : Registration) (s : MerchSelection) (v : Variant)
      (fresh : Nat),
      r.paymentApprovalStatus = .pending → r.paymentProofImage ≠ none →
      r.merchandiseSelection = some s → s.variantId ≠ "" →
      e.variants.find? (fun x => x.variantId == s.variantId) = some v →
      v.stockQuantity < qtyOrOne s.quantity →
      payIsSaveError (approvePayment e r fresh) = true
      ∧ payEvent (approvePayment e r fresh) e = e
      ∧ (payReg (approvePayment e r fresh) r).paymentApprovalStatus
          = .approved
      ∧ (payReg (approvePayment e r fresh) r).ticketId ≠ none)
    ∧ (∀ (e : EventRec) (r : Registration) (s : MerchSelection) (v : Variant)
      (fresh : Nat),
      r.paymentApprovalStatus = .pending → r.paymentProofImage ≠ none →
      r.merchandiseSelection = some s → s.variantId ≠ "" →
      e.variants.find? (fun x => x.variantId == s.variantId) = some v →
      ¬ v.stockQuantity < qtyOrOne s.quantity →
      payIsOk (approvePayment e r fresh) = true
      ∧ stockOf (payEvent (approvePayment e r fresh) e).variants s.variantId
          = some (v.stockQuantity - qtyOrOne s.quantity)) := by
  refine ⟨?_, ?_, ?_⟩
  · intro e iii dl al s v fresh hst hdl hal helig hlim het hvid hfind hstock
    subst hdl hal
    unfold submitRegistration
    rcases hst with h | h <;>
      simp [h, helig, hlim, het, hvid, hfind, hstock]
  · intro e r s v fresh hpend hproof hsel hvid hfind hstock
    have hblocked : payDecrementBlocked e r = true := by
      unfold payDecrementBlocked
      rw [hsel]
      simp [hvid, hfind, hstock]
    obtain ⟨hout, -, -, -, -, htid, -, -, -⟩ :=
      approvePayment_ok e r fresh hpend hproof
    rw [hblocked] at hout
    simp only [if_true] at hout
    refine ⟨hout.1, hout.2, ?_, ?_⟩
    · exact (approvePayment_ok e r fresh hpend hproof).2.1
    · rw [htid]
      split_ifs with h
      · simp
      · exact h
  · intro e r s v fresh hpend hproof hsel hvid hfind hstock
    have hblocked : payDecrementBlocked e r = false := by
      unfold payDecrementBlocked
      rw [hsel]
      simp [hvid, hfind, hstock]
    obtain ⟨hout, -⟩ := approvePayment_ok e r fresh hpend hproof
    rw [hblocked] at hout
    rw [if_neg (by simp)] at hout
    obtain ⟨hok, -, hvars, -, -⟩ := hout
    refine ⟨hok, ?_⟩
    rw [hsel] at hvars
    simp [hvid] at hvars
    rw [hvars, stockOf_decStockFirst]
    simp [stockOf, hfind]

/-- Witness for `stock_check_only_at_submission`: a submission against
the sold-out event is refused with the distinct out-of-stock error; the
approval that would overdraw the last unit ends in the save failure;
the approval with sufficient stock decrements 1 → 0. -/
theorem stock_check_only_at_submission_witness :
    (cEv6a.status = .published ∨ cEv6a.status = .ongoing)
    ∧ cEv6a.eligibility = .all
    ∧ limitReached cEv6a = false
    ∧ cEv6a.eventType = .merchandise
    ∧ cSel.variantId ≠ ""
    ∧ cEv6a.variants.find? (fun x => x.variantId == cSel.variantId)
        = some ⟨"v1", 0, 500⟩
    ∧ (Variant.mk "v1" 0 500).stockQuantity < qtyOrOne cSel.quantity
    ∧ submitRegistration cEv6a true false false (some cSel) 999
        = .error .outOfStock
    ∧ cReg6.paymentApprovalStatus = .pending
    ∧ cReg6.paymentProofImage ≠ none
    ∧ cReg6.merchandiseSelection = some cSel
    ∧ (payIsSaveError (approvePayment cEv6a cReg6 204) = true
      ∧ payEvent (approvePayment cEv6a cReg6 204) cEv6a = cEv6a
      ∧ (payReg (approvePayment cEv6a cReg6 204) cReg6).paymentApprovalStatus
          = .approved
      ∧ (payReg (approvePayment cEv6a cReg6 204) cReg6).ticketId ≠ none)
    ∧ cEv6.variants.find? (fun x => x.variantId == cSel.variantId)
        = some ⟨"v1", 1, 500⟩
    ∧ ¬ (Variant.mk "v1" 1 500).stockQuantity < qtyOrOne cSel.quantity
    ∧ (payIsOk (approvePayment cEv6 cReg6 203) = true
      ∧ stockOf (payEvent (approvePayment cEv6 cReg6 203) cEv6).variants
          cSel.variantId
          = some ((Variant.mk "v1" 1 500).stockQuantity
              - qtyOrOne cSel.quantity)) :=
  ⟨by decide, by decide, by decide, by decide, by decide, by decide,
    by decide,
    stock_check_only_at_submission.1 cEv6a true false false cSel
      ⟨"v1", 0, 500⟩ 999 (by decide) rfl rfl (by decide) (by decide)
      (by decide) (by decide) (by decide) (by decide),
    by decide, by decide, by decide,
    stock_check_only_at_submission.2.1 cEv6a cReg6 cSel ⟨"v1", 0, 500⟩ 204
      (by decide) (by decide) (by decide) (by decide) (by decide)
      (by decide),
    by decide, by decide,
    stock_check_only_at_submission.2.2 cEv6 cReg6 cSel ⟨"v1", 1, 500⟩ 203
      (by decide) (by decide) (by decide) (by decide) (by decide)
      (by decide)⟩

/-- A lifecycle approve-payment call always moves to the projected
persisted state (shared helper). -/
theorem applyOp_approvePayment (e : EventRec) (r : Registration) (f : Nat) :
    applyOp (e, r) (.approvePayment f)
      = (payEvent (approvePayment e r f) e, payReg (approvePayment e r f) r)
    := by
  unfold applyOp payEvent payReg
  dsimp only
  cases happ : approvePayment e r f <;> rfl

/-- A guard-failing approve-payment call changes nothing (shared
helper). -/
theorem approvePayment_guard (e : EventRec) (r : Registration) (f : Nat)
    (h : r.paymentApprovalStatus ≠ .pending ∨ r.paymentProofImage = none) :
    applyOp (e, r) (.approvePayment f) = (e, r) := by
  unfold applyOp approvePayment
  dsimp only
  rcases h with h | h
  · rw [if_pos h]
  · by_cases hpend : r.paymentApprovalStatus ≠ .pending
    · rw [if_pos hpend]
    · rw [if_neg hpend, if_pos h]

/-- One lifecycle call preserves the registration-lifetime invariant
(shared helper). -/
theorem lifecycleInv_step (n0 : Nat) (e : EventRec) (r : Registration)
    (op : LifecycleOp) (h : LifecycleInv n0 (e, r)) :
    LifecycleInv n0 (applyOp (e, r) op) := by
  obtain ⟨h1, h2, h3⟩ := h
  simp only [LifecycleInv, committed] at h1 h2 h3 ⊢
  cases op with
  | uploadProof p =>
    rcases r with ⟨st, ps, pas, ras, tid, qr, proof, prr, rrr, att, mo, orr,
      sel, hist⟩
    simp only [applyOp, uploadPaymentProof]
    cases pas <;> simp_all
  | approvePayment f =>
    by_cases hpend : r.paymentApprovalStatus = .pending
    · by_cases hproof : r.paymentProofImage = none
      · rw [approvePayment_guard e r f (Or.inr hproof)]
        exact ⟨h1, h2, h3⟩
      · obtain ⟨hout, hpas, -, -, -, -, -, -, -⟩ :=
          approvePayment_ok e r f hpend hproof
        have htr : e.totalRegistrations = n0 := by
          rcases h1 with h1 | ⟨-, hc⟩
          · exact h1
          · rw [hpend] at hc
            simp at hc
        rw [applyOp_approvePayment]
        dsimp only
        refine ⟨?_, ?_, ?_⟩
        · by_cases hb : payDecrementBlocked e r = true
          · rw [hb] at hout
            rw [if_pos rfl] at hout
            left
            rw [hout.2]
            exact htr
          · rw [Bool.not_eq_true] at hb
            rw [hb] at hout
            rw [if_neg (by simp)] at hout
            right
            refine ⟨?_, ?_⟩
            · rw [hout.2.1, htr]
            · simp [hpas]
        · intro hticket
          simp [hpas]
        · intro hqr2
          simp [hpas]
    · rw [approvePayment_guard e r f (Or.inl hpend)]
      exact ⟨h1, h2, h3⟩
  | rejectPayment reason =>
    rcases r with ⟨st, ps, pas, ras, tid, qr, proof, prr, rrr, att, mo, orr,
      sel, hist⟩
    simp only [applyOp, rejectPayment]
    cases pas <;> simp_all
  | approveRegistration f =>
    rcases r with ⟨st, ps, pas, ras, tid, qr, proof, prr, rrr, att, mo, orr,
      sel, hist⟩
    simp only [applyOp, approveRegistration]
    cases ras <;> cases pas <;> cases qr <;> cases tid <;> simp_all
  | rejectRegistration reason =>
    rcases r with ⟨st, ps, pas, ras, tid, qr, proof, prr, rrr, att, mo, orr,
      sel, hist⟩
    simp only [applyOp, rejectRegistration]
    cases ras <;> simp_all

/-- The invariant holds along any sequence of lifecycle calls (shared
helper). -/
theorem lifecycleInv_runOps (n0 : Nat) (s : EventRec × Registration)
    (ops : List LifecycleOp) (h : LifecycleInv n0 s) :
    LifecycleInv n0 (runOps s ops) := by
  induction ops generalizing s with
  | nil => exact h
  | cons op ops ih =>
    exact ih (applyOp s op)
      (by rcases s with ⟨e, r⟩; exact lifecycleInv_step n0 e r op h)

/-- A successful submission establishes the invariant, relative to the
pre-submission `totalRegistrations` (shared helper). -/
theorem lifecycleInv_init (e : EventRec) (iii dl al : Bool)
    (sel : Option MerchSelection) (fresh : Nat) (e0 : EventRec)
    (r0 : Registration)
    (h : submitRegistration e iii dl al sel fresh = .ok (e0, r0)) :
    LifecycleInv e.totalRegistrations (e0, r0) := by
  obtain ⟨hra, hpa, hfin⟩ := submit_ok e iii dl al sel fresh e0 r0 h
  unfold LifecycleInv committed
  rcases hp : paidCond e sel <;> rcases hq : e.requiresApproval <;>
    simp_all

/-- C1 counterexample: on the merchandise event `cEv` the sequence
submit → upload proof → approve payment → reject registration commits
inventory (stock 5 → 4, `totalRegistrations` 0 → 1) inside the
approve-payment call even though the registration gate is still pending
there and the registration's approval ends `rejected` — contradicting
both "committed in the single approval call that clears the last pending
gate" and "never executed for a registration whose registration approval
ends rejected". -/
theorem commit_kept_for_rejected_registration :
    submitRegistration cEv true false false (some cSel) 101 = .ok (cEv, cReg0)
    ∧ cEv.totalRegistrations = 0
    ∧ stockOf cEv.variants "v1" = some 5
    ∧ (runOps (cEv, cReg0) cOpsRej).2.registrationApprovalStatus = .rejected
    ∧ (runOps (cEv, cReg0) cOpsRej).2.status = .rejected
    ∧ (runOps (cEv, cReg0) cOpsRej).1.totalRegistrations = 1
    ∧ stockOf (runOps (cEv, cReg0) cOpsRej).1.variants "v1" = some 4 := by
  decide

/-- C1 (amended): over any sequence of post-submission lifecycle calls,
the inventory commit happens at most once — the event's
`totalRegistrations` never exceeds one above its pre-submission value,
exceeds it only in a `committed` gate configuration (payment approved,
or payment never required with the registration gate cleared), and
never when the payment gate ends rejected.  The commit is neither tied
to the *last* gate (approve-payment commits while the registration gate
is still pending, and the commit survives a later registration
rejection) nor guaranteed at all: when the approve-payment event save
is rejected by the stock validator, the payment gate ends approved with
the commit permanently skipped. -/
theorem inventory_commit_lifecycle (e : EventRec) (iii dl al : Bool)
    (sel : Option MerchSelection) (fresh : Nat) (e0 : EventRec)
    (r0 : Registration) (ops : List LifecycleOp)
    (h : submitRegistration e iii dl al sel fresh = .ok (e0, r0)) :
    (runOps (e0, r0) ops).1.totalRegistrations ≤ e.totalRegistrations + 1
    ∧ ((runOps (e0, r0) ops).1.totalRegistrations
          = e.totalRegistrations + 1 →
        committed (runOps (e0, r0) ops).2 = true)
    ∧ ((runOps (e0, r0) ops).2.paymentApprovalStatus = .rejected →
        (runOps (e0, r0) ops).1.totalRegistrations
          = e.totalRegistrations) := by
  obtain ⟨h1, h2, h3⟩ := lifecycleInv_runOps e.totalRegistrations
    (e0, r0) ops (lifecycleInv_init e iii dl al sel fresh e0 r0 h)
  refine ⟨?_, ?_, ?_⟩
  · rcases h1 with h1 | ⟨h1, -⟩ <;> omega
  · intro htr
    rcases h1 with h1 | ⟨-, hc⟩
    · omega
    · exact hc
  · intro hrej
    rcases h1 with h1 | ⟨-, hc⟩
    · exact h1
    · unfold committed at hc
      rw [hrej] at hc
      simp at hc

/-- Witness for `inventory_commit_lifecycle` on the concrete approval
trace. -/
theorem inventory_commit_lifecycle_witness :
    submitRegistration cEv true false false (some cSel) 101 = .ok (cEv, cReg0)
    ∧ ((runOps (cEv, cReg0) cOps).1.totalRegistrations
        ≤ cEv.totalRegistrations + 1
      ∧ ((runOps (cEv, cReg0) cOps).1.totalRegistrations
            = cEv.totalRegistrations + 1 →
          committed (runOps (cEv, cReg0) cOps).2 = true)
      ∧ ((runOps (cEv, cReg0) cOps).2.paymentApprovalStatus = .rejected →
          (runOps (cEv, cReg0) cOps).1.totalRegistrations
            = cEv.totalRegistrations)) :=
  ⟨by decide,
    inventory_commit_lifecycle cEv true false false (some cSel) 101 cEv cReg0
      cOps (by decide)⟩

/-- C3 counterexample: after submit → upload proof → approve payment on
`cEv`, the registration holds a ticket id and an encrypted QR while its
`registrationApprovalStatus` is still `pending` — contradicting the
claimed "ticket and QR set iff both gates in (not_required, approved)". -/
theorem ticket_present_while_gate_pending :
    submitRegistration cEv true false false (some cSel) 101 = .ok (cEv, cReg0)
    ∧ (runOps (cEv, cReg0) cOps).2.ticketId = some 102
    ∧ (runOps (cEv, cReg0) cOps).2.qrCodeEncrypted = some ()
    ∧ (runOps (cEv, cReg0) cOps).2.registrationApprovalStatus = .pending := by
  decide

/-- C3 (amended): the biconditional fails, but two weaker one-sided
invariants hold over every reachable registration state: a ticket never
exists while *both* gates are simultaneously pending, and an encrypted
QR never exists while the payment gate is pending.  (A ticket or QR can
exist while the registration gate is pending or after a gate was
rejected: approve-payment issues both regardless of the registration
gate.) -/
theorem ticket_qr_gate_invariant (e : EventRec) (iii dl al : Bool)
    (sel : Option MerchSelection) (fresh : Nat) (e0 : EventRec)
    (r0 : Registration) (ops : List LifecycleOp)
    (h : submitRegistration e iii dl al sel fresh = .ok (e0, r0)) :
    ((runOps (e0, r0) ops).2.ticketId ≠ none →
      ¬ ((runOps (e0, r0) ops).2.paymentApprovalStatus = .pending ∧
         (runOps (e0, r0) ops).2.registrationApprovalStatus = .pending))
    ∧ ((runOps (e0, r0) ops).2.qrCodeEncrypted ≠ none →
        (runOps (e0, r0) ops).2.paymentApprovalStatus ≠ .pending) := by
  obtain ⟨h1, h2, h3⟩ := lifecycleInv_runOps e.totalRegistrations
    (e0, r0) ops (lifecycleInv_init e iii dl al sel fresh e0 r0 h)
  exact ⟨h2, h3⟩

/-- Witness for `ticket_qr_gate_invariant` on the concrete approval
trace. -/
theorem ticket_qr_gate_invariant_witness :
    submitRegistration cEv true false false (some cSel) 101 = .ok (cEv, cReg0)
    ∧ (((runOps (cEv, cReg0) cOps).2.ticketId ≠ none →
        ¬ ((runOps (cEv, cReg0) cOps).2.paymentApprovalStatus = .pending ∧
           (runOps (cEv, cReg0) cOps).2.registrationApprovalStatus
             = .pending))
      ∧ ((runOps (cEv, cReg0) cOps).2.qrCodeEncrypted ≠ none →
          (runOps (cEv, cReg0) cOps).2.paymentApprovalStatus ≠ .pending)) :=
  ⟨by decide,
    ticket_qr_gate_invariant cEv true false false (some cSel) 101 cEv cReg0
      cOps (by decide)⟩

/-! ### Ticket codec lemmas -/

theorem hexDec_hexEnc (bs : List Nat) (h : ∀ x ∈ bs, x < 256) :
    hexDec (hexEnc bs) = some bs := by
  induction bs with
  | nil => simp [hexEnc, hexDec]
  | cons b bs ih =>
    have hb : b < 256 := h b (by simp)
    have h1 : b / 16 < 16 := by omega
    have h2 : b % 16 < 16 := by omega
    have h3 : b / 16 * 16 + b % 16 = b := by omega
    simp only [hexEnc, hexDec]
    rw [if_pos ⟨h1, h2⟩, ih (fun x hx => h x (by simp [hx]))]
    simp [h3]

theorem getLast?_cons_replicate (m : Nat) (a : Nat) :
    (a :: List.replicate m a).getLast? = some a := by
  induction m with
  | zero => rfl
  | succ m ih =>
    rw [List.replicate_succ]
    rw [List.getLast?_cons_cons]
    exact ih

theorem pkcs7unpad_append_replicate (bs : List Nat) (k : Nat)
    (hk1 : 1 ≤ k) (hk16 : k ≤ 16) :
    pkcs7unpad (bs ++ List.replicate k k) = some bs := by
  have hlen : (bs ++ List.replicate k k).length = bs.length + k := by simp
  have hlast : (bs ++ List.replicate k k).getLast? = some k := by
    rcases Nat.exists_eq_add_of_le hk1 with ⟨m, hm⟩
    subst hm
    rw [List.getLast?_append_of_ne_nil _ (by simp)]
    have : 1 + m = m + 1 := by omega
    rw [this, List.replicate_succ]
    exact getLast?_cons_replicate m (m + 1)
  unfold pkcs7unpad
  rw [hlast]
  dsimp only
  rw [if_neg (by rw [hlen]; omega)]
  have hsub : (bs ++ List.replicate k k).length - k = bs.length := by
    rw [hlen]; omega
  rw [hsub]
  rw [List.drop_left, List.take_left]
  simp



theorem pkcs7unpad_pkcs7pad (bs : List Nat) :
    pkcs7unpad (pkcs7pad bs) = some bs := by
  unfold pkcs7pad
  exact pkcs7unpad_append_replicate bs _ (by omega) (by omega)

theorem chunks16_flatten (l : List Nat) : (chunks16 l).flatten = l := by
  induction l using chunks16.induct with
  | case1 => simp [chunks16]
  | case2 l hne ih =>
    rw [chunks16, dif_neg hne]
    simp [ih, List.take_append_drop]

theorem chunks16_of_blocks (blocks : List (List Nat))
    (h : ∀ b ∈ blocks, b.length = 16) :
    chunks16 blocks.flatten = blocks := by
  induction blocks with
  | nil => simp [chunks16]
  | cons b rest ih =>
    have hb : b.length = 16 := h b (by simp)
    have hbne : b ++ rest.flatten ≠ [] := by
      intro hc
      have := congrArg List.length hc
      simp [hb] at this
    rw [List.flatten_cons, chunks16, dif_neg hbne]
    have ht : List.take 16 (b ++ rest.flatten) = b := by
      rw [← hb, List.take_left]
    have hd : List.drop 16 (b ++ rest.flatten) = rest.flatten := by
      rw [← hb, List.drop_left]
    rw [ht, hd, ih (fun x hx => h x (by simp [hx]))]

theorem chunks16_length_blocks (l : List Nat) (h : l.length % 16 = 0) :
    ∀ b ∈ chunks16 l, b.length = 16 := by
  induction l using chunks16.induct with
  | case1 => simp [chunks16]
  | case2 l hne ih =>
    have hpos : 0 < l.length := List.length_pos.mpr hne
    have h16 : 16 ≤ l.length := by omega
    intro b hb
    rw [chunks16, dif_neg hne] at hb
    rcases List.mem_cons.mp hb with hb | hb
    · subst hb
      simp [List.length_take]
      omega
    · refine ih ?_ b hb
      simp [List.length_drop]
      omega

theorem chunks16_bytes (l : List Nat) (h : ∀ x ∈ l, x < 256) :
    ∀ b ∈ chunks16 l, ∀ x ∈ b, x < 256 := by
  intro b hb x hx
  apply h
  rw [← chunks16_flatten l]
  exact List.mem_flatten.mpr ⟨b, hb, hx⟩



theorem zipXor_cancel (a b : List Nat) (h : a.length = b.length) :
    zipXor a (zipXor a b) = b := by
  induction a generalizing b with
  | nil => cases b <;> simp_all [zipXor]
  | cons x a ih =>
    cases b with
    | nil => simp at h
    | cons y b =>
      simp only [zipXor, List.zipWith_cons_cons]
      rw [Nat.xor_cancel_left]
      have := ih b (by simpa using h)
      simp only [zipXor] at this
      rw [this]

theorem zipXor_length (a b : List Nat) (h : a.length = b.length) :
    (zipXor a b).length = a.length := by
  simp [zipXor, h]

theorem zipXor_bytes (a b : List Nat) (ha : ∀ x ∈ a, x < 256)
    (hb : ∀ x ∈ b, x < 256) : ∀ x ∈ zipXor a b, x < 256 := by
  induction a generalizing b with
  | nil => simp [zipXor]
  | cons x a ih =>
    cases b with
    | nil => simp [zipXor]
    | cons y b =>
      intro z hz
      simp only [zipXor, List.zipWith_cons_cons, List.mem_cons] at hz
      rcases hz with hz | hz
      · subst hz
        have hx : x < 2 ^ 8 := ha x (by simp)
        have hy : y < 2 ^ 8 := hb y (by simp)
        calc x ^^^ y < 2 ^ 8 := Nat.xor_lt_two_pow hx hy
          _ = 256 := by norm_num
      · exact ih b (fun u hu => ha u (by simp [hu]))
          (fun u hu => hb u (by simp [hu])) z hz


theorem cbcEnc_spec (C : CipherModel) (hC : GoodCipher C)
    (blocks : List (List Nat)) :
    ∀ (prev : List Nat), prev.length = 16 → (∀ x ∈ prev, x < 256) →
    (∀ b ∈ blocks, b.length = 16 ∧ ∀ x ∈ b, x < 256) →
    ∀ c ∈ cbcEnc C.encBlock prev blocks, c.length = 16 ∧ ∀ x ∈ c, x < 256 := by
  obtain ⟨hinv, hlen, hrange⟩ := hC
  induction blocks with
  | nil => simp [cbcEnc]
  | cons b bs ih =>
    intro prev hp hpb hblocks c hc
    obtain ⟨hb16, hbb⟩ := hblocks b (by simp)
    have hx16 : (zipXor prev b).length = 16 := by
      rw [zipXor_length prev b (by omega)]
      exact hp
    have hxb : ∀ x ∈ zipXor prev b, x < 256 := zipXor_bytes prev b hpb hbb
    have hc16 : (C.encBlock (zipXor prev b)).length = 16 := hlen _ hx16 hxb
    have hcb : ∀ x ∈ C.encBlock (zipXor prev b), x < 256 := hrange _ hx16 hxb
    simp only [cbcEnc, List.mem_cons] at hc
    rcases hc with hc | hc
    · subst hc
      exact ⟨hc16, hcb⟩
    · exact ih (C.encBlock (zipXor prev b)) hc16 hcb
        (fun b2 hb2 => hblocks b2 (by simp [hb2])) c hc

theorem cbcDec_cbcEnc (C : CipherModel) (hC : GoodCipher C)
    (blocks : List (List Nat)) :
    ∀ (prev : List Nat), prev.length = 16 → (∀ x ∈ prev, x < 256) →
    (∀ b ∈ blocks, b.length = 16 ∧ ∀ x ∈ b, x < 256) →
    cbcDec C.decBlock prev (cbcEnc C.encBlock prev blocks) = blocks := by
  obtain ⟨hinv, hlen, hrange⟩ := hC
  induction blocks with
  | nil => simp [cbcEnc, cbcDec]
  | cons b bs ih =>
    intro prev hp hpb hblocks
    obtain ⟨hb16, hbb⟩ := hblocks b (by simp)
    have hx16 : (zipXor prev b).length = 16 := by
      rw [zipXor_length prev b (by omega)]
      exact hp
    have hxb : ∀ x ∈ zipXor prev b, x < 256 := zipXor_bytes prev b hpb hbb
    have hc16 : (C.encBlock (zipXor prev b)).length = 16 := hlen _ hx16 hxb
    have hcb : ∀ x ∈ C.encBlock (zipXor prev b), x < 256 := hrange _ hx16 hxb
    simp only [cbcEnc, cbcDec]
    rw [hinv _ hx16 hxb]
    rw [zipXor_cancel prev b (by omega)]
    rw [ih (C.encBlock (zipXor prev b)) hc16 hcb
      (fun b2 hb2 => hblocks b2 (by simp [hb2]))]


theorem flatten_blocks_mod (bs : List (List Nat))
    (h : ∀ b ∈ bs, b.length = 16) : bs.flatten.length % 16 = 0 := by
  induction bs with
  | nil => simp
  | cons b rest ih =>
    have hb := h b (by simp)
    have hr := ih (fun c hc => h c (by simp [hc]))
    simp only [List.flatten_cons, List.length_append, hb]
    omega

theorem pkcs7pad_bytes (data : List Nat) (h : ∀ x ∈ data, x < 256) :
    ∀ x ∈ pkcs7pad data, x < 256 := by
  intro x hx
  rcases List.mem_append.mp hx with hx | hx
  · exact h x hx
  · have := List.eq_of_mem_replicate hx
    omega

theorem pkcs7pad_mod (data : List Nat) : (pkcs7pad data).length % 16 = 0 := by
  simp only [pkcs7pad, List.length_append, List.length_replicate]
  omega

theorem decryptQRData_encryptQRData (C : CipherModel) (hC : GoodCipher C)
    (iv data : List Nat) (hiv : iv.length = 16) (hivb : ∀ x ∈ iv, x < 256)
    (hdata : ∀ x ∈ data, x < 256) :
    decryptQRData C (encryptQRData C iv data).1 (encryptQRData C iv data).2
      = some data := by
  have hblocks : ∀ b ∈ chunks16 (pkcs7pad data),
      b.length = 16 ∧ ∀ x ∈ b, x < 256 :=
    fun b hb => ⟨chunks16_length_blocks _ (pkcs7pad_mod data) b hb,
      chunks16_bytes _ (pkcs7pad_bytes data hdata) b hb⟩
  have hcipher := cbcEnc_spec C hC (chunks16 (pkcs7pad data)) iv hiv hivb
    hblocks
  have hctb : ∀ x ∈ (cbcEnc C.encBlock iv (chunks16 (pkcs7pad data))).flatten,
      x < 256 := by
    intro x hx
    obtain ⟨c, hc, hxc⟩ := List.mem_flatten.mp hx
    exact (hcipher c hc).2 x hxc
  have hctlen :
      (cbcEnc C.encBlock iv (chunks16 (pkcs7pad data))).flatten.length % 16
        = 0 :=
    flatten_blocks_mod _ (fun c hc => (hcipher c hc).1)
  unfold encryptQRData decryptQRData
  rw [hexDec_hexEnc _ hctb, hexDec_hexEnc _ hivb]
  dsimp only
  rw [if_pos ⟨hiv, hctlen⟩]
  rw [chunks16_of_blocks _ (fun c hc => (hcipher c hc).1)]
  rw [cbcDec_cbcEnc C hC (chunks16 (pkcs7pad data)) iv hiv hivb hblocks]
  rw [chunks16_flatten]
  exact pkcs7unpad_pkcs7pad data


theorem expectBytes_append (pre rest : List Nat) :
    expectBytes pre (pre ++ rest) = some rest := by
  simp [expectBytes, List.take_left, List.drop_left]

theorem expectBytes_exact (pre : List Nat) :
    expectBytes pre pre = some [] := by
  simpa using expectBytes_append pre []

theorem readStringValue_append (v rest : List Nat) (hv : 34 ∉ v) :
    readStringValue (v ++ 34 :: rest) = some (v, rest) := by
  induction v with
  | nil => simp [readStringValue]
  | cons b v ih =>
    have hb : b ≠ 34 := by
      intro hc
      exact hv (by simp [hc])
    simp only [List.cons_append, readStringValue, List.append_eq]
    rw [if_neg hb, ih (fun hc => hv (by simp [hc]))]
    rfl

theorem readMember_append (name v rest : List Nat) (hv : 34 ∉ v) :
    readMember name (jsonMember name v ++ rest) = some (v, rest) := by
  have harg : jsonMember name v ++ rest
      = ([34] ++ name ++ [34, 58, 34]) ++ (v ++ 34 :: rest) := by
    simp [jsonMember]
  unfold readMember
  rw [harg, expectBytes_append]
  exact readStringValue_append v rest hv

theorem parseTicket_serializeTicket (t : TicketData) (ht : safeTicket t) :
    parseTicket (serializeTicket t) = some t := by
  obtain ⟨⟨_, h1, _⟩, ⟨_, h2, _⟩, ⟨_, h3, _⟩, ⟨_, h4, _⟩, ⟨_, h5, _⟩,
    ⟨_, h6, _⟩⟩ := ht
  unfold serializeTicket parseTicket
  rw [expectBytes_append]
  dsimp only
  rw [readMember_append _ _ _ h1]
  dsimp only
  rw [expectBytes_append]
  dsimp only
  rw [readMember_append _ _ _ h2]
  dsimp only
  rw [expectBytes_append]
  dsimp only
  rw [readMember_append _ _ _ h3]
  dsimp only
  rw [expectBytes_append]
  dsimp only
  rw [readMember_append _ _ _ h4]
  dsimp only
  rw [expectBytes_append]
  dsimp only
  rw [readMember_append _ _ _ h5]
  dsimp only
  rw [expectBytes_append]
  dsimp only
  rw [readMember_append _ _ _ h6]
  dsimp only
  rw [expectBytes_exact]
  rfl


/-- All bytes of the serialized ticket are bytes (shared helper). -/
theorem serializeTicket_bytes (t : TicketData) (ht : safeTicket t) :
    ∀ x ∈ serializeTicket t, x < 256 := by
  obtain ⟨⟨f1, -, -⟩, ⟨f2, -, -⟩, ⟨f3, -, -⟩, ⟨f4, -, -⟩, ⟨f5, -, -⟩,
    ⟨f6, -, -⟩⟩ := ht
  simp only [serializeTicket, jsonMember, List.forall_mem_append]
  repeat' apply And.intro
  all_goals
    first
    | decide
    | exact f1
    | exact f2
    | exact f3
    | exact f4
    | exact f5
    | exact f6

/-- The identity block cipher satisfies the cipher interface (shared
helper, used to witness the codec round-trip). -/
theorem goodCipher_idCipher : GoodCipher idCipher :=
  ⟨fun _ _ _ => rfl, fun _ hb _ => hb, fun _ _ hb => hb⟩

/-- C9: ticket-codec round-trip.  For every identity tuple with
JSON-safe fields, every 16-byte IV, and every block cipher with the
AES-256 inversion/shape properties, decrypting the
`(encryptedData, iv)` envelope produced by encrypting the serialized
tuple with the same key yields a plaintext that parses back to exactly
the original fields. -/
theorem qr_codec_roundtrip (C : CipherModel) (hC : GoodCipher C)
    (iv : List Nat) (hiv : iv.length = 16) (hivb : ∀ x ∈ iv, x < 256)
    (t : TicketData) (ht : safeTicket t) :
    decodeTicket C (encryptQRData C iv (serializeTicket t)) = some t := by
  unfold decodeTicket
  rw [decryptQRData_encryptQRData C hC iv (serializeTicket t) hiv hivb
    (serializeTicket_bytes t ht)]
  exact parseTicket_serializeTicket t ht

/-- Witness for `qr_codec_roundtrip`: the identity cipher, a concrete
IV and a concrete ticket tuple. -/
theorem qr_codec_roundtrip_witness :
    GoodCipher idCipher
    ∧ (List.replicate 16 7).length = 16
    ∧ (∀ x ∈ List.replicate 16 7, x < 256)
    ∧ safeTicket cTicket
    ∧ decodeTicket idCipher
        (encryptQRData idCipher (List.replicate 16 7)
          (serializeTicket cTicket)) = some cTicket :=
  ⟨goodCipher_idCipher, by decide, by decide,
    by unfold safeTicket jsonSafe; decide,
    qr_codec_roundtrip idCipher goodCipher_idCipher (List.replicate 16 7)
      (by decide) (by decide) cTicket
      (by unfold safeTicket jsonSafe; decide)⟩

end Felicity
